import Mathlib

set_option linter.unreachableTactic false
set_option linter.unnecessarySeqFocus false
set_option linter.unusedTactic false
set_option linter.unusedVariables false
set_option maxHeartbeats 1000000

/-!
Verification development for the BankFusion statement-ingestion backend.

The Python sources are shallowly embedded: machine floats are modelled as
exact rationals (the amounts in play are short decimal values for which
Python float rounding is not relevant to any proved property), strings are
Lean `String`s, and the outcome of each regular-expression test on the
transaction description is carried as an explicit Boolean (or `Option
String` for capture groups).  All control flow is translated from the
source files `backend/pdf_extractor.py`, `backend/hybrid_normalizer.py`,
`backend/openai_normalizer_enhanced.py`, `backend/services/pdf_processor.py`
and `backend/db/insert_bank_statements.py`.
-/

namespace BankFusion

/-! ## String utilities mirroring the Python primitives used by the code -/

/-- Characters of a string. -/
def chars (s : String) : List Char := s.data

/-- Python `str.replace(old, '')` for a single character: drop every
occurrence of the character. -/
def dropChar (c : Char) (s : String) : String :=
  ⟨(chars s).filter (fun x => x != c)⟩

/-- Python `'x' in s` for a single character. -/
def containsChar (s : String) (c : Char) : Bool :=
  (chars s).any (fun x => x == c)

/-- ASCII whitespace, the only whitespace occurring in the modelled cells. -/
def isSpaceChar (c : Char) : Bool :=
  c == ' ' || c == '\n' || c == '\t' || c == '\r'

/-- Python `str.strip()`. -/
def pyStrip (s : String) : String :=
  ⟨(((chars s).dropWhile isSpaceChar).reverse.dropWhile isSpaceChar).reverse⟩

/-- Currency symbols removed by `re.sub(r'[₹$€£]', '', ...)`. -/
def isCurrencyChar (c : Char) : Bool :=
  c == '₹' || c == '$' || c == '€' || c == '£'

/-- Drop the currency symbols from a string. -/
def dropCurrency (s : String) : String :=
  ⟨(chars s).filter (fun c => !(isCurrencyChar c))⟩

/-- All decimal digits of a string, in order (`re.sub(r'[^\d]', '', s)`). -/
def digitsOf (s : String) : List Char :=
  (chars s).filter Char.isDigit

/-- The first maximal run of digits of a string
(`re.search(r'(\d+)', s)` group 1), or `[]` when the string holds no digit. -/
def firstDigitRun (s : String) : List Char :=
  ((chars s).dropWhile (fun c => !c.isDigit)).takeWhile Char.isDigit

/-- Numeric value of a digit list (most significant digit first). -/
def digitsVal : List Char → ℕ
  | [] => 0
  | c :: cs => (c.toNat - '0'.toNat) * 10 ^ cs.length + digitsVal cs

/-- Rational value of an integer digit part together with a fractional digit
part: the exact value of `float("<int>.<frac>")`. -/
def decimalVal (intPart fracPart : List Char) : ℚ :=
  (digitsVal intPart : ℚ) + (digitsVal fracPart : ℚ) / (10 : ℚ) ^ fracPart.length

/-- First match of `\d+\.?\d*` over a character list: the integer digits and
the fractional digits when a decimal point follows.  `none` when no digit
occurs. -/
def firstNumberMatch : List Char → Option (List Char × List Char)
  | [] => none
  | c :: cs =>
    if c.isDigit then
      let intPart := (c :: cs).takeWhile Char.isDigit
      let rest := (c :: cs).dropWhile Char.isDigit
      match rest with
      | '.' :: rest2 => some (intPart, rest2.takeWhile Char.isDigit)
      | _ => some (intPart, [])
    else firstNumberMatch cs

/-- `re.sub(r'(Dr|DR|Cr|CR|Debit|Credit)', '', s, flags=IGNORECASE)`:
scanning left to right, at each position a case-insensitive two-character
`dr`/`cr` match is deleted first (the alternation lists them first), else a
`debit`/`credit` match; fuelled recursion on the list length. -/
def dropDrCrGo : ℕ → List Char → List Char
  | 0, l => l
  | _ + 1, [] => []
  | fuel + 1, c :: cs =>
    let low := c.toLower
    if low == 'd' || low == 'c' then
      match cs with
      | c2 :: rest =>
        if c2.toLower == 'r' then dropDrCrGo fuel rest
        else if low == 'd' && ((c2 :: rest).take 4).map Char.toLower == ['e', 'b', 'i', 't'] then
          dropDrCrGo fuel ((c2 :: rest).drop 4)
        else if low == 'c' && ((c2 :: rest).take 5).map Char.toLower == ['r', 'e', 'd', 'i', 't'] then
          dropDrCrGo fuel ((c2 :: rest).drop 5)
        else c :: dropDrCrGo fuel cs
      | [] => [c]
    else c :: dropDrCrGo fuel cs

/-- Deletion of the Dr/Cr/Debit/Credit markers from a character list. -/
def dropDrCr (l : List Char) : List Char :=
  dropDrCrGo (l.length + 1) l

/-- `parse_amount_improved` (pdf_extractor.py): strip commas, spaces and
currency symbols, honour a leading `-`/`(` as negation, delete Dr/Cr/Debit/
Credit markers, then take the value of the first `\d+\.?\d*` match. -/
def parse_amount_improved (amount_str : String) : ℚ :=
  if pyStrip amount_str = "" then 0 else
  let cleaned := pyStrip (dropChar ' ' (dropChar ',' amount_str))
  let cleaned := dropCurrency cleaned
  let isNegative : Bool := match chars cleaned with
    | c :: _ => c == '-' || c == '('
    | [] => false
  let cleaned := if isNegative then dropChar ')' (dropChar '(' (dropChar '-' cleaned)) else cleaned
  match firstNumberMatch (dropDrCr (chars cleaned)) with
  | some (ip, fp) => if isNegative then -(decimalVal ip fp) else decimalVal ip fp
  | none => 0

/-- All matches of `\d+\.?\d*` over a string (`re.findall`), as exact
rational values, scanning left to right without overlap; fuelled recursion. -/
def findAllNumbersGo : ℕ → List Char → List ℚ
  | 0, _ => []
  | _ + 1, [] => []
  | fuel + 1, c :: cs =>
    if c.isDigit then
      let intPart := (c :: cs).takeWhile Char.isDigit
      let rest := (c :: cs).dropWhile Char.isDigit
      match rest with
      | '.' :: rest2 =>
        decimalVal intPart (rest2.takeWhile Char.isDigit) ::
          findAllNumbersGo fuel (rest2.dropWhile Char.isDigit)
      | _ => decimalVal intPart [] :: findAllNumbersGo fuel rest
    else findAllNumbersGo fuel cs

/-- All `\d+\.?\d*` matches of a string. -/
def findAllNumbers (s : String) : List ℚ :=
  findAllNumbersGo (s.length + 1) (chars s)

/-- Python `str.lower()` (ASCII). -/
def pyLower (s : String) : String :=
  ⟨(chars s).map Char.toLower⟩

/-- Python `str.upper()` (ASCII). -/
def pyUpper (s : String) : String :=
  ⟨(chars s).map Char.toUpper⟩

/-- Python `str.title()`: the first letter of each alphabetic run is
uppercased and the rest lowercased. -/
def pyTitle (s : String) : String :=
  ⟨go false (chars s)⟩
where
  go : Bool → List Char → List Char
    | _, [] => []
    | prevAlpha, c :: cs =>
      if c.isAlpha then
        (if prevAlpha then c.toLower else c.toUpper) :: go true cs
      else c :: go false cs

/-- Substring containment, Python `needle in haystack`. -/
def containsSub (haystack needle : String) : Bool :=
  go (chars haystack)
where
  go : List Char → Bool
    | [] => (chars needle).isEmpty
    | c :: cs => (chars needle).isPrefixOf (c :: cs) || go cs

/-! ## hybrid_normalizer.py: data model

`TxnText` records, for one transaction's narration+description text
(uppercased as `text_upper` in the source), the Boolean outcome of every
regular-expression test that `apply_global_rules`, the OpenAI-output
validation in `normalize_transaction`, and `extract_merchant_from_text`
perform on it, plus the string outcome of the few capture groups.  The
regex engine itself is not re-implemented; each field is named after the
keyword pattern it reports. -/
set_option genInjectivity false in
set_option genSizeOfSpec false in
structure TxnText where
  -- channel patterns (step 1)
  cwdr : Bool := false
  bupi : Bool := false
  medr : Bool := false
  nach : Bool := false
  upiab : Bool := false
  upiar : Bool := false
  mobft : Bool := false
  upi : Bool := false
  imps : Bool := false
  neft : Bool := false
  rtgs : Bool := false
  atm : Bool := false
  atwDash : Bool := false       -- r'ATW-'
  atw : Bool := false           -- r'\bATW\b' (final safety check)
  -- priority 1: EMI / loan
  homeLoanEmi : Bool := false
  housingLoanEmi : Bool := false
  homeLoan : Bool := false
  housingLoan : Bool := false
  personalLoanEmi : Bool := false
  personalLoan : Bool := false
  carLoanEmi : Bool := false
  carLoan : Bool := false
  educationLoanEmi : Bool := false
  educationLoan : Bool := false
  creditCardEmi : Bool := false
  loanEmi : Bool := false
  homecrindfin : Bool := false
  homeCredit : Bool := false
  achD : Bool := false          -- r'\bACH\s+D-\b'
  nbfc : Bool := false
  finance : Bool := false
  emi : Bool := false
  -- priority 2: education
  school : Bool := false
  schoolFees : Bool := false
  schoolfeesWord : Bool := false
  education : Bool := false
  college : Bool := false
  university : Bool := false
  tuition : Bool := false
  admission : Bool := false
  fees : Bool := false
  -- priority 3: travel bookings
  irctc : Bool := false
  yatra : Bool := false
  cleartrip : Bool := false
  makeMyTrip : Bool := false
  makemytripWord : Bool := false
  flight : Bool := false
  hotel : Bool := false
  -- priority 4: ATM / cash
  cashDep : Bool := false
  cashDeposit : Bool := false
  microAtmCashDep : Bool := false
  -- priority 5 / 6: fuel and utilities
  gasPayment : Bool := false
  gasBill : Bool := false
  lpg : Bool := false
  electricity : Bool := false
  power : Bool := false
  discom : Bool := false
  msedcl : Bool := false
  mseb : Bool := false
  bescom : Bool := false
  tangedco : Bool := false
  petrolPump : Bool := false
  iocl : Bool := false
  bpcl : Bool := false
  hpcl : Bool := false
  indianOil : Bool := false
  bharatPetroleum : Bool := false
  hp : Bool := false
  shellKw : Bool := false
  petrol : Bool := false
  fuelKw : Bool := false
  gas : Bool := false
  diesel : Bool := false
  fiber : Bool := false
  broadband : Bool := false
  dth : Bool := false
  internetPayment : Bool := false
  internet : Bool := false
  jio : Bool := false
  airtel : Bool := false
  vi : Bool := false
  vodafone : Bool := false
  bsnl : Bool := false
  recharge : Bool := false
  bill : Bool := false
  -- priority 7: groceries
  spencers : Bool := false
  spencerOptS : Bool := false   -- r'\bSPENCER\'?S\b'
  spencer : Bool := false
  dmart : Bool := false
  dmartApos : Bool := false     -- r'\bD\'?MART\b'
  bigBazaar : Bool := false
  bigbazaarWord : Bool := false
  relianceSmart : Bool := false
  reliance : Bool := false
  naturesBasket : Bool := false
  natureSBasket : Bool := false
  bigbasketWord : Bool := false
  bigBasket : Bool := false
  grofers : Bool := false
  -- priority 8: food
  swiggy : Bool := false
  zomato : Bool := false
  mcdonald : Bool := false
  mcdonalds : Bool := false
  kfc : Bool := false
  burgerKing : Bool := false
  burgerkingWord : Bool := false
  instamart : Bool := false
  barbequeNation : Bool := false
  barbeque : Bool := false
  monchunies : Bool := false
  dominos : Bool := false
  domino : Bool := false
  pizzaHut : Bool := false
  subway : Bool := false
  haldiram : Bool := false
  haldirams : Bool := false
  -- priority 9: entertainment
  pvr : Bool := false
  pvrCinemas : Bool := false
  cinepolis : Bool := false
  bookmyshow : Bool := false
  bookMyShow : Bool := false
  inox : Bool := false
  cinema : Bool := false
  movie : Bool := false
  -- priority 10: shopping
  ajio : Bool := false
  amazon : Bool := false
  flipkart : Bool := false
  myntra : Bool := false
  pantaloons : Bool := false
  westside : Bool := false
  lifestyleKw : Bool := false
  shopper : Bool := false
  -- priority 11: other travel
  ola : Bool := false
  uber : Bool := false
  rapido : Bool := false
  goibibo : Bool := false
  goIbibo : Bool := false
  metro : Bool := false
  redbus : Bool := false
  redBus : Bool := false
  pmpml : Bool := false
  pmpl : Bool := false
  fastag : Bool := false
  toll : Bool := false
  -- priority 12: healthcare
  practo : Bool := false
  gym : Bool := false
  fitness : Bool := false
  goldsGym : Bool := false
  goldsGymPlain : Bool := false
  cultFit : Bool := false
  cultfitWord : Bool := false
  talwalkars : Bool := false
  anytimeFitness : Bool := false
  hospital : Bool := false
  fortis : Bool := false
  apollo : Bool := false
  pharmacy : Bool := false
  medical : Bool := false
  medplus : Bool := false
  medPlus : Bool := false
  -- priority 13: rent
  rent : Bool := false
  houseRent : Bool := false
  rental : Bool := false
  rentPayment : Bool := false
  -- priority 14: insurance
  lic : Bool := false
  hdfcLife : Bool := false
  hdfclifeWord : Bool := false
  insurance : Bool := false
  premium : Bool := false
  policy : Bool := false
  lifeInsurance : Bool := false
  healthInsurance : Bool := false
  termInsurance : Bool := false
  insuranceCompany : Option String := none   -- capture of company before LIFE/HEALTH/TERM INSURANCE
  insuranceCompany2 : Option String := none  -- capture of r'([A-Z][A-Z\s&]+?)\s+INSURANCE'
  -- priority 15: salary / income
  salary : Bool := false
  payroll : Bool := false
  creditSalary : Bool := false
  neftSalary : Bool := false                 -- r'\bNEFT.*SALARY\b'
  crPersonName : Bool := false               -- CR/<name>/ capture yields a non-brand name of length > 1
  upiPersonSegment : Bool := false           -- UPIAR/UPIAB merchant segment is a non-brand name of length > 1
  salaryCompany : Option String := none      -- cleaned capture of company before SALARY
  knownEmployer : Option String := none      -- first KNOWN_EMPLOYERS hit, already .title()-cased
  -- strict transfer
  upiCr : Bool := false                      -- r'\bUPI\s+CR\b'
  brandKeyword : Bool := false               -- some KNOWN_BRANDS key word-matches the text
  transferMerchant : Option String := none   -- person-name merchant produced by patterns 1-4 with cleaning
  -- priority 16: interest
  creditInterest : Bool := false
  interestCredit : Bool := false
  interestIncome : Bool := false
  interestPaid : Bool := false
  interestOnSavings : Bool := false
  savingsInterest : Bool := false
  -- priority 17 / 18: credit-card bill payment
  billdk : Bool := false
  cards : Bool := false
  bankNameMatch : Option String := none      -- capture of (SBI|HDFC|AXIS|ICICI|KOTAK|PNB|BOI|UNION|CENTRAL)
  sbiCards : Bool := false
  cardPayment : Bool := false
  cardSettlement : Bool := false
  cardBill : Bool := false
  creditCard : Bool := false
  cardDues : Bool := false
  cardOutstanding : Bool := false
  cardStatement : Bool := false
  cardMinimum : Bool := false
  cardAmount : Bool := false
  cardsPayment : Bool := false
  ccPayment : Bool := false
  cardRepayment : Bool := false
  -- final education safety check extras
  educationFee : Bool := false
  educationFees : Bool := false
  tuitionFee : Bool := false
  tuitionFees : Bool := false
  annualFee : Bool := false
  annualFees : Bool := false
  schoolAdmission : Bool := false
  -- OpenAI-output validation extras (normalize_transaction)
  atmWdl : Bool := false
  atmCash : Bool := false
  cashWdl : Bool := false
  cashWithdrawal : Bool := false
  bankTransfer : Bool := false
  upiP2p : Bool := false
  -- result of extract_merchant_from_text on the same text
  extractedMerchant : String := "Unknown"
deriving Repr

/-- The five classification fields of a normalization suggestion or result
(`transaction_type`, `merchant`, `channel`, `debit_or_credit`,
`category`). -/
structure NormResult where
  transaction_type : String := "debit"
  merchant : String := "Unknown"
  channel : String := "OTHER"
  debit_or_credit : String := "debit"
  category : String := "transfer"
deriving DecidableEq, Repr

/-- `KNOWN_BRANDS` (hybrid_normalizer.py, module level): brand key to
canonical merchant name. -/
def KNOWN_BRANDS : List (String × String) :=
  [("SWIGGY", "Swiggy"), ("ZOMATO", "Zomato"), ("MCDONALD", "McDonalds"),
   ("MCDONALDS", "McDonalds"), ("KFC", "KFC"), ("BURGER KING", "Burger King"),
   ("BURGERKING", "Burger King"), ("INSTAMART", "Instamart"),
   ("BARBEQUE NATION", "Barbeque Nation"), ("BARBEQUE", "Barbeque Nation"),
   ("MONCHUNIES", "Monchunies"), ("DOMINOS", "Dominos Pizza"),
   ("DOMINO", "Dominos Pizza"), ("PIZZA HUT", "Pizza Hut"), ("PIZZA", "Pizza"),
   ("SUBWAY", "Subway"), ("HALDIRAM", "Haldiram"), ("HALDIRAMS", "Haldiram"),
   ("SPENCERS", "Spencer\x27s"), ("SPENCER\x27S", "Spencer\x27s"), ("SPENCER", "Spencer\x27s"),
   ("SPENCERS RETAIL", "Spencer\x27s"), ("DMART", "DMart"), ("D\x27MART", "DMart"),
   ("BIG BAZAAR", "Big Bazaar"), ("BIGBAZAAR", "Big Bazaar"),
   ("RELIANCE SMART", "Reliance Smart"), ("RELIANCE", "Reliance"),
   ("NATURE\x27S BASKET", "Nature\x27s Basket"), ("NATURE S BASKET", "Nature\x27s Basket"),
   ("NATURE BASKET", "Nature\x27s Basket"), ("BIGBASKET", "BigBasket"),
   ("BIG BASKET", "BigBasket"), ("GROFERS", "Grofers"), ("AJIO", "AJIO"),
   ("AMAZON", "Amazon"), ("FLIPKART", "Flipkart"), ("MYNTRA", "Myntra"),
   ("PANTALOONS", "Pantaloons"), ("WESTSIDE", "Westside"), ("LIFESTYLE", "Lifestyle"),
   ("SHOPPER", "Shoppers Stop"), ("PVR", "PVR"), ("PVR CINEMAS", "PVR Cinemas"),
   ("CINEPOLIS", "Cinepolis"), ("INOX", "INOX"), ("BOOKMYSHOW", "BookMyShow"),
   ("CINEMA", "Cinema"), ("MOVIE", "Movie"), ("OLA", "Ola"), ("UBER", "Uber"),
   ("RAPIDO", "Rapido"), ("IRCTC", "IRCTC"), ("METRO", "Metro"), ("REDBUS", "RedBus"),
   ("RED BUS", "RedBus"), ("PMPML", "PMPML"), ("PMPL", "PMPML"),
   ("MAKE MY TRIP", "MakeMyTrip"), ("MAKEMYTRIP", "MakeMyTrip"),
   ("GOIBIBO", "Goibibo"), ("GO IBIBO", "Goibibo"), ("PRACTO", "Practo"),
   ("GOLD\x27S GYM", "Gold\x27s Gym"), ("GOLDS GYM", "Gold\x27s Gym"), ("GYM", "Gym"),
   ("FITNESS", "Fitness"), ("CULT FIT", "Cult.fit"), ("CULTFIT", "Cult.fit"),
   ("TALWALKARS", "Talwalkars"), ("ANYTIME FITNESS", "Anytime Fitness"),
   ("HOSPITAL", "Hospital"), ("FORTIS", "Fortis"), ("APOLLO", "Apollo"),
   ("PHARMACY", "Pharmacy"), ("MEDICAL", "Medical"), ("MEDPLUS", "MedPlus"),
   ("MED PLUS", "MedPlus"), ("INDIAN OIL", "Indian Oil"), ("IOCL", "Indian Oil"),
   ("HP", "HP"), ("HPCL", "HPCL"), ("BPCL", "Bharat Petroleum"),
   ("BHARAT PETROLEUM", "Bharat Petroleum"), ("SHELL", "Shell"),
   ("PETROL PUMP", "Petrol Pump"), ("AIRTEL", "Airtel"), ("JIO", "Jio"),
   ("VODAFONE", "Vodafone"), ("VI", "Vi"), ("BSNL", "BSNL"), ("FIBER", "Fiber"),
   ("BROADBAND", "Broadband"), ("DTH", "DTH"), ("ELECTRICITY", "Electricity"),
   ("GAS", "Gas"), ("LIC", "LIC"), ("HDFC LIFE", "HDFC Life"),
   ("HDFCLIFE", "HDFC Life")]

/-- `brand_key in merchant_upper` loop over `KNOWN_BRANDS.keys()`: does the
uppercased merchant contain any brand key as a substring? -/
def isBrandMerchant (merchant : String) : Bool :=
  KNOWN_BRANDS.any (fun kv => containsSub (pyUpper merchant) kv.1)

/-! ## hybrid_normalizer.py: apply_global_rules -/

/-- The running best match of the priority ladder (`matched_priority` and
the `matched_*` variables). -/
structure MatchSt where
  priority : ℕ := 999
  category : Option String := none
  merchant : Option String := none
  transaction_type : Option String := none
  channel : Option String := none
  debit_or_credit : Option String := none
deriving DecidableEq, Repr

/-- One rule of the ladder: when its keyword condition holds and its priority
beats the current one, replace the match (`if cond: if k < matched_priority:
...`). -/
def tryRule (cond : Bool) (k : ℕ) (upd : MatchSt → MatchSt) (s : MatchSt) : MatchSt :=
  if cond then (if k < s.priority then upd s else s) else s

/-- `extracted_merchant if extracted_merchant != 'Unknown' else None`. -/
def extractedOpt (extracted : String) : Option String :=
  if extracted ≠ "Unknown" then some extracted else none

/-- Step 1 of apply_global_rules: pattern-based channel detection. -/
def detectChannel (f : TxnText) (r : NormResult) : NormResult :=
  if f.cwdr then { r with channel := "CASH" }
  else if f.bupi then { r with channel := "UPI" }
  else if f.medr then { r with channel := "CARD" }
  else if f.nach then { r with channel := "ACH" }
  else if f.upiab || f.upiar then { r with channel := "UPI" }
  else if f.mobft then { r with channel := "UPI" }
  else if f.upi then { r with channel := "UPI" }
  else if f.imps then { r with channel := "IMPS" }
  else if f.neft then { r with channel := "NEFT" }
  else if f.rtgs then { r with channel := "RTGS" }
  else if f.atm || f.atwDash then { r with channel := "ATM" }
  else r

/-- Priority 1 condition: any EMI/loan keyword. -/
def hasEmiLoanKeyword (f : TxnText) : Bool :=
  f.homeLoanEmi || f.housingLoanEmi || f.homeLoan || f.housingLoan ||
  f.personalLoanEmi || f.personalLoan || f.carLoanEmi || f.carLoan ||
  f.educationLoanEmi || f.educationLoan || f.creditCardEmi || f.loanEmi ||
  f.homecrindfin || f.homeCredit || f.achD || f.nbfc || f.finance || f.emi

/-- Priority 1 merchant, following the loan-type elif chain. -/
def p1LoanMerchant (f : TxnText) (extracted : String) : String :=
  if f.homeLoanEmi || f.housingLoanEmi then "Home Loan EMI"
  else if f.homeLoan || f.housingLoan then "Home Loan EMI"
  else if f.personalLoanEmi then "Personal Loan EMI"
  else if f.personalLoan then "Personal Loan EMI"
  else if f.carLoanEmi then "Car Loan EMI"
  else if f.carLoan then "Car Loan EMI"
  else if f.educationLoanEmi then "Education Loan EMI"
  else if f.educationLoan then "Education Loan EMI"
  else if f.creditCardEmi then "Credit Card EMI"
  else if f.loanEmi then "Loan EMI Payment"
  else if f.homecrindfin || f.homeCredit then "Home Credit EMI"
  else if f.achD then (if extracted ≠ "Unknown" then extracted else "Loan EMI Payment")
  else if f.nbfc || f.finance then (if extracted ≠ "Unknown" then extracted else "Loan EMI Payment")
  else "EMI Payment"

/-- Priority 2 condition: education keywords. -/
def hasEducationKeyword (f : TxnText) : Bool :=
  f.school || f.schoolFees || f.schoolfeesWord || f.education || f.college ||
  f.university || f.tuition || f.admission || f.fees

/-- Priority 2 merchant. -/
def p2EducationMerchant (f : TxnText) (extracted : String) : String :=
  if f.schoolFees || f.schoolfeesWord then "School Fees"
  else if f.school then "School"
  else if f.college then "College"
  else if f.university then "University"
  else if f.tuition then "Tuition"
  else if f.admission then "Admission"
  else if f.fees then "Fees"
  else (if extracted ≠ "Unknown" then extracted else "Education")

/-- Priority 3 condition: travel-booking platforms. -/
def hasTravelBookingKeyword (f : TxnText) : Bool :=
  f.irctc || f.yatra || f.cleartrip || f.makeMyTrip || f.makemytripWord ||
  f.flight || f.hotel

/-- Priority 3 merchant (also used by the final travel safety check). -/
def travelBookingMerchant (f : TxnText) (extracted : String) : String :=
  if f.irctc then "IRCTC"
  else if f.yatra then "Yatra"
  else if f.cleartrip then "Cleartrip"
  else if f.makeMyTrip || f.makemytripWord then "MakeMyTrip"
  else if f.flight then "Flight Booking"
  else if f.hotel then "Hotel Booking"
  else (if extracted ≠ "Unknown" then extracted else "Travel Booking")

/-- `is_cash_deposit`. -/
def isCashDepositText (f : TxnText) : Bool :=
  f.cashDep || f.cashDeposit || f.microAtmCashDep

/-- `is_utility_payment` (guard of the fuel rule). -/
def isUtilityPayment (f : TxnText) : Bool :=
  f.gasPayment || f.gasBill || f.lpg || f.electricity || f.power ||
  f.discom || f.msedcl || f.mseb || f.bescom || f.tangedco

/-- Priority 5 condition body: petrol-pump keywords. -/
def hasFuelRuleKeyword (f : TxnText) : Bool :=
  f.petrolPump || f.iocl || f.bpcl || f.hpcl || f.indianOil ||
  f.bharatPetroleum || f.hp || f.shellKw || (f.petrol && !f.gas) ||
  (f.fuelKw && !f.gas) || f.diesel

/-- Utility keywords before the telecom-with-service extension. -/
def hasUtilityKeywordBase (f : TxnText) : Bool :=
  f.electricity || f.power || f.discom || f.msedcl || f.mseb || f.bescom ||
  f.tangedco || f.gasPayment || f.gasBill || f.lpg || f.fiber ||
  f.broadband || f.dth || f.internetPayment || f.internet

/-- A telecom service word. -/
def hasServiceWord (f : TxnText) : Bool :=
  f.recharge || f.bill || f.fiber || f.broadband || f.dth

/-- Telecom brand with a service word, following the per-brand elif chain of
priority 6 (the chain stops at the first brand present, even without a
service word). -/
def telecomBrand (f : TxnText) : Option String :=
  if f.jio then (if hasServiceWord f then some "Jio" else none)
  else if f.airtel then (if hasServiceWord f then some "Airtel" else none)
  else if f.vi then (if hasServiceWord f then some "Vi" else none)
  else if f.vodafone then (if hasServiceWord f then some "Vodafone" else none)
  else if f.bsnl then (if hasServiceWord f then some "BSNL" else none)
  else none

/-- Full `has_utility_keyword` of priority 6. -/
def hasUtilityKeyword (f : TxnText) : Bool :=
  hasUtilityKeywordBase f || (telecomBrand f).isSome

/-- Priority 6 merchant. -/
def p6UtilityMerchant (f : TxnText) (extracted : String) : Option String :=
  match telecomBrand f with
  | some b => some b
  | none =>
    if f.msedcl then some "MSEDCL"
    else if f.mseb then some "MSEB"
    else if f.bescom then some "BESCOM"
    else if f.tangedco then some "TANGEDCO"
    else if f.discom then some "DISCOM"
    else if f.electricity || f.power then some "Electricity"
    else if f.gasPayment || f.gasBill || f.lpg then some "Gas"
    else if f.gas then
      (if !(f.petrol || f.fuelKw) then some "Gas" else extractedOpt extracted)
    else if f.internet then some "Internet Service"
    else extractedOpt extracted

/-- `has_telecom` guard of the groceries rule. -/
def hasTelecom (f : TxnText) : Bool :=
  f.jio || f.airtel || f.vodafone || f.vi || f.bsnl

/-- `has_fuel` guard of the groceries rule. -/
def hasFuelGuard (f : TxnText) : Bool :=
  f.petrol || f.fuelKw || f.bpcl || f.hpcl || f.iocl

/-- Priority 7 (k = 8) condition body: grocery brands. -/
def hasGroceryKeyword (f : TxnText) : Bool :=
  f.spencers || f.spencerOptS || f.spencer || f.dmart || f.dmartApos ||
  f.bigBazaar || f.bigbazaarWord || f.relianceSmart || f.reliance ||
  f.naturesBasket || f.natureSBasket || f.bigbasketWord || f.bigBasket ||
  f.grofers

/-- Priority 8 (k = 9): food brands. -/
def hasFoodKeyword (f : TxnText) : Bool :=
  f.swiggy || f.zomato || f.mcdonald || f.mcdonalds || f.kfc ||
  f.burgerKing || f.burgerkingWord || f.instamart || f.barbequeNation ||
  f.barbeque || f.monchunies || f.dominos || f.domino || f.pizzaHut ||
  f.subway || f.haldiram || f.haldirams

/-- Priority 9 (k = 10): entertainment brands. -/
def hasEntertainmentKeyword (f : TxnText) : Bool :=
  f.pvr || f.pvrCinemas || f.cinepolis || f.bookmyshow || f.bookMyShow ||
  f.inox || f.cinema || f.movie

/-- Priority 10 (k = 11): shopping brands. -/
def hasShoppingKeyword (f : TxnText) : Bool :=
  f.ajio || f.amazon || f.flipkart || f.myntra || f.dmart || f.dmartApos ||
  f.bigBazaar || f.bigbazaarWord || f.pantaloons || f.westside ||
  f.lifestyleKw || f.shopper

/-- Priority 11 (k = 11): other travel / toll. -/
def hasOtherTravelKeyword (f : TxnText) : Bool :=
  f.ola || f.uber || f.rapido || f.irctc || f.goibibo || f.goIbibo ||
  f.metro || f.redbus || f.redBus || f.pmpml || f.pmpl || f.makeMyTrip ||
  f.makemytripWord || f.fastag || f.toll

/-- Priority 12: healthcare. -/
def hasHealthcareKeyword (f : TxnText) : Bool :=
  f.practo || f.gym || f.fitness || f.goldsGym || f.goldsGymPlain ||
  f.cultFit || f.cultfitWord || f.talwalkars || f.anytimeFitness ||
  f.hospital || f.fortis || f.apollo || f.pharmacy || f.medical ||
  f.medplus || f.medPlus

/-- Priority 13: rent. -/
def hasRentKeyword (f : TxnText) : Bool :=
  f.rent || f.houseRent || f.rental || f.rentPayment

/-- Priority 14: insurance keywords. -/
def hasInsuranceKeyword (f : TxnText) : Bool :=
  f.lic || f.hdfcLife || f.hdfclifeWord || f.insurance || f.premium ||
  f.policy || f.lifeInsurance || f.healthInsurance || f.termInsurance

/-- Priority 14 merchant. -/
def p14InsuranceMerchant (f : TxnText) (extracted : String) : String :=
  if f.lic then "LIC"
  else if f.hdfcLife || f.hdfclifeWord then "HDFC Life"
  else if f.insurance then
    match f.insuranceCompany with
    | some c => pyTitle c ++ " Insurance"
    | none =>
      if extracted ≠ "Unknown" then extracted
      else
        match f.insuranceCompany2 with
        | some c => pyTitle c ++ " Insurance"
        | none => "LIC"
  else (if extracted ≠ "Unknown" then extracted else "LIC")

/-- `is_person_transfer` of the salary rule: a credit-only row on a transfer
rail whose CR/UPI name capture is a non-brand person name. -/
def isPersonTransfer (f : TxnText) (debit credit : ℚ) : Bool :=
  (if credit > 0 ∧ debit = 0 then
    (f.upiab || f.upiar || f.mobft || f.imps || f.neft) &&
      (f.crPersonName || f.upiPersonSegment)
  else false)

/-- `is_salary`: explicit salary keywords, suppressed by a person transfer. -/
def isSalary (f : TxnText) (debit credit : ℚ) : Bool :=
  (f.salary || f.payroll || f.creditSalary || f.neftSalary) &&
    !(isPersonTransfer f debit credit)

/-- Salary merchant for the credit branch. -/
def salaryMerchant (f : TxnText) : String :=
  match f.salaryCompany with
  | some c => if 2 < c.length then pyTitle c else "Salary"
  | none =>
    match f.knownEmployer with
    | some e => e
    | none => "Salary"

/-- Blocks that forbid the strict P2P transfer rule. -/
def hasEmiLoanBlock (f : TxnText) : Bool :=
  f.emi || f.loanEmi || f.homeLoan || f.housingLoan || f.personalLoan ||
  f.carLoan || f.educationLoan || f.achD || f.homecrindfin ||
  f.homeCredit || f.nbfc || f.finance

/-- Education block of the transfer rule. -/
def hasEducationBlock (f : TxnText) : Bool :=
  f.school || f.education || f.college || f.university || f.tuition || f.fees

/-- Priority 16: interest keywords. -/
def hasInterestKeyword (f : TxnText) : Bool :=
  f.creditInterest || f.interestCredit || f.interestIncome ||
  f.interestPaid || f.interestOnSavings || f.savingsInterest

/-- Priority 18: credit-card payment keywords. -/
def hasCardPaymentKeyword (f : TxnText) : Bool :=
  f.sbiCards || f.cardPayment || f.cardSettlement || f.cardBill ||
  f.creditCard || f.cardDues || f.cardOutstanding || f.cardStatement ||
  f.cardMinimum || f.cardAmount || f.cardsPayment || f.ccPayment ||
  f.cardRepayment

/-- The strict P2P transfer rule (priority 4, evaluated after the salary
rule and only from the unmatched state). -/
def transferRule (f : TxnText) (r : NormResult) (debit credit : ℚ)
    (s : MatchSt) : MatchSt :=
  if s.priority = 999 && !(hasEmiLoanBlock f) && !(hasEducationBlock f) &&
      !(hasTravelBookingKeyword f) then
    let isTransferChannel : Bool :=
      f.upiab || f.upiar || f.mobft || f.imps || f.neft || f.rtgs ||
      f.upiCr || (r.channel = "UPI" || r.channel = "IMPS" ||
        r.channel = "NEFT" || r.channel = "RTGS")
    let extractedIsBrand : Bool :=
      f.extractedMerchant ≠ "Unknown" && isBrandMerchant f.extractedMerchant
    if isTransferChannel && !f.brandKeyword && !extractedIsBrand then
      if 4 < s.priority then
        let chan : Option String :=
          if f.upiab || f.upiar then some "UPI"
          else if f.mobft then some "UPI"
          else if f.imps then some "IMPS"
          else if f.neft then some "NEFT"
          else if f.rtgs then some "RTGS"
          else if f.upi || r.channel = "UPI" then some "UPI"
          else s.channel
        let merch : String :=
          match f.transferMerchant with
          | some m => m
          | none =>
            if f.extractedMerchant ≠ "Unknown" then f.extractedMerchant
            else "Transfer"
        let s1 : MatchSt :=
          { s with
            priority := 4, category := some "transfer",
            transaction_type := some "transfer", channel := chan,
            merchant := some merch }
        if debit > 0 then
          { s1 with
            transaction_type := some "transfer",
            debit_or_credit := some "debit" }
        else if credit > 0 then
          { s1 with
            transaction_type := some "transfer_received",
            debit_or_credit := some "credit" }
        else s1
      else s
    else s
  else s

/-- Step 2 of apply_global_rules: the full priority ladder over the initial
(unmatched) state, in source order. -/
def priorityLadder (f : TxnText) (r : NormResult) (debit credit : ℚ) : MatchSt :=
  let ex := f.extractedMerchant
  let s : MatchSt := {}
  let s := tryRule (hasEmiLoanKeyword f) 1
    (fun s => { s with
      priority := 1, category := some "emi_loan",
      transaction_type := some "loan_payment",
      merchant := some (p1LoanMerchant f ex) }) s
  let s := tryRule (hasEducationKeyword f) 2
    (fun s => { s with
      priority := 2, category := some "education",
      transaction_type := some "expense",
      merchant := some (p2EducationMerchant f ex) }) s
  let s := tryRule (hasTravelBookingKeyword f) 3
    (fun s => { s with
      priority := 3, category := some "travel",
      transaction_type := some "expense",
      merchant := some (travelBookingMerchant f ex) }) s
  let s := tryRule ((f.atwDash || f.atm) && !(isCashDepositText f)) 4
    (fun s => { s with
      priority := 4, category := some "cash",
      merchant := some "ATM Withdrawal",
      transaction_type := some "withdrawal", channel := some "ATM",
      debit_or_credit := some "debit" }) s
  let s := tryRule (isCashDepositText f) 4
    (fun s => { s with
      priority := 4, category := some "cash",
      merchant := some "Cash Deposit", transaction_type := some "credit",
      channel := some "CASH", debit_or_credit := some "credit" }) s
  let s := tryRule (!(isUtilityPayment f) && hasFuelRuleKeyword f) 5
    (fun s => { s with
      priority := 5, category := some "fuel",
      merchant := extractedOpt ex }) s
  let s := tryRule (hasUtilityKeyword f) 6
    (fun s => { s with
      priority := 6, category := some "bills_utilities",
      merchant := p6UtilityMerchant f ex }) s
  let s := tryRule (!(hasTelecom f) && !(hasFuelGuard f) &&
      !(hasUtilityKeyword f) && hasGroceryKeyword f) 8
    (fun s => { s with
      priority := 8, category := some "groceries",
      merchant := extractedOpt ex }) s
  let s := tryRule (hasFoodKeyword f) 9
    (fun s => { s with
      priority := 9, category := some "food_dining",
      merchant := extractedOpt ex }) s
  let s := tryRule (hasEntertainmentKeyword f) 10
    (fun s => { s with
      priority := 10, category := some "entertainment",
      merchant := extractedOpt ex }) s
  let s := tryRule (hasShoppingKeyword f) 11
    (fun s => { s with
      priority := 11, category := some "shopping",
      merchant := if f.ajio then some "AJIO" else extractedOpt ex }) s
  let s := tryRule (hasOtherTravelKeyword f) 11
    (fun s => { s with
      priority := 11, category := some "travel",
      merchant := if f.fastag || f.toll then some "Fastag"
        else extractedOpt ex }) s
  let s := tryRule (hasHealthcareKeyword f) 12
    (fun s => { s with
      priority := 12, category := some "healthcare",
      merchant := extractedOpt ex }) s
  let s := tryRule (hasRentKeyword f) 13
    (fun s => { s with
      priority := 13, category := some "rent",
      merchant := some (if ex ≠ "Unknown" then ex else "Rent Payment") }) s
  let s := tryRule (hasInsuranceKeyword f) 14
    (fun s => { s with
      priority := 14, category := some "insurance",
      merchant := some (p14InsuranceMerchant f ex) }) s
  let s := tryRule (isSalary f debit credit) 15
    (fun s =>
      if debit > 0 ∧ credit = 0 then
        { s with
          priority := 15, category := some "bank_charges",
          merchant := some "Bank", debit_or_credit := some "debit",
          transaction_type := some "debit" }
      else
        { s with
          priority := 15, category := some "income",
          merchant := some (salaryMerchant f),
          debit_or_credit := some "credit",
          transaction_type := some "credit" }) s
  let s := transferRule f r debit credit s
  let s := tryRule (hasInterestKeyword f) 16
    (fun s => { s with
      priority := 16, category := some "interest_income",
      debit_or_credit := some "credit",
      transaction_type := some "credit" }) s
  let s := tryRule (f.billdk && f.cards) 17
    (fun s => { s with
      priority := 17,
      category := some "credit_card_payment",
      merchant := some (match f.bankNameMatch with
        | some b => b ++ " Credit Card"
        | none => "Credit Card") }) s
  let s := tryRule (hasCardPaymentKeyword f) 18
    (fun s => { s with
      priority := 18,
      category := some "credit_card_payment" }) s
  s

/-- Step 3: apply the highest-priority match onto the running result. -/
def applyMatched (s : MatchSt) (r : NormResult) : NormResult :=
  if s.priority < 999 then
    { category := s.category.getD r.category,
      merchant := s.merchant.getD r.merchant,
      transaction_type := s.transaction_type.getD r.transaction_type,
      channel := s.channel.getD r.channel,
      debit_or_credit := s.debit_or_credit.getD r.debit_or_credit }
  else r

/-- Final safety check: an ATM debit row must never stay in
shopping/groceries/food/travel/transfer. -/
def safetyAtm (f : TxnText) (debit : ℚ) (r : NormResult) : NormResult :=
  if (f.atm || f.atw) ∧ debit > 0 ∧
      (r.category = "shopping" ∨ r.category = "groceries" ∨
       r.category = "food_dining" ∨ r.category = "travel" ∨
       r.category = "transfer") then
    { r with
      category := "cash", merchant := "ATM Withdrawal",
      transaction_type := "withdrawal", channel := "ATM",
      debit_or_credit := "debit" }
  else r

/-- Final safety check: rent keywords must never stay in transfer. -/
def safetyRent (f : TxnText) (r : NormResult) : NormResult :=
  if hasRentKeyword f ∧ r.category = "transfer" then
    { r with
      category := "rent",
      merchant := if f.extractedMerchant ≠ "Unknown" then f.extractedMerchant
        else "Rent Payment" }
  else r

/-- `education_type_final` chain of the final education safety check,
yielding the merchant it would assign. -/
def educationTypeFinal (f : TxnText) : Option String :=
  if f.schoolFees || f.schoolfeesWord then some "School Fees"
  else if f.educationFee || f.educationFees then some "Education Fee"
  else if f.tuitionFee || f.tuitionFees then some "Tuition Fee"
  else if f.annualFee || f.annualFees then some "School Fees"
  else if f.schoolAdmission then some "School Admission"
  else if f.school then some "School"
  else if f.college then some "College"
  else if f.university then some "University"
  else if f.tuition then some "Tuition"
  else if f.admission then some "Admission"
  else if f.fees && (f.school || f.education || f.tuition) then some "Fees"
  else none

/-- Final safety check: education keywords must never stay in
transfer/others/shopping. -/
def safetyEducation (f : TxnText) (r : NormResult) : NormResult :=
  match educationTypeFinal f with
  | some m =>
    if r.category = "transfer" ∨ r.category = "others" ∨
        r.category = "shopping" then
      { r with
        category := "education", transaction_type := "expense",
        merchant := m }
    else r
  | none => r

/-- Final safety check: travel bookings must never stay in transfer/others. -/
def safetyTravel (f : TxnText) (r : NormResult) : NormResult :=
  if hasTravelBookingKeyword f ∧
      (r.category = "transfer" ∨ r.category = "others") then
    { r with
      category := "travel", transaction_type := "expense",
      merchant := travelBookingMerchant f f.extractedMerchant }
  else r

/-- `loan_type_final` chain of the final EMI safety check (it has no
CREDIT CARD EMI case), yielding the merchant it would assign. -/
def loanTypeFinalMerchant (f : TxnText) : Option String :=
  if f.homeLoanEmi || f.housingLoanEmi then some "Home Loan EMI"
  else if f.homeLoan || f.housingLoan then some "Home Loan EMI"
  else if f.personalLoanEmi then some "Personal Loan EMI"
  else if f.personalLoan then some "Personal Loan EMI"
  else if f.carLoanEmi then some "Car Loan EMI"
  else if f.carLoan then some "Car Loan EMI"
  else if f.educationLoanEmi then some "Education Loan EMI"
  else if f.educationLoan then some "Education Loan EMI"
  else if f.loanEmi then some "Loan EMI Payment"
  else if f.homecrindfin || f.homeCredit then some "Home Credit EMI"
  else if f.achD then some (if f.extractedMerchant ≠ "Unknown" then
    f.extractedMerchant else "Loan EMI Payment")
  else if f.nbfc || f.finance then some (if f.extractedMerchant ≠ "Unknown"
    then f.extractedMerchant else "Loan EMI Payment")
  else if f.emi then some "EMI Payment"
  else none

/-- Final safety check: EMI keywords override transfer and the listed
expense categories. -/
def safetyEmi (f : TxnText) (r : NormResult) : NormResult :=
  match loanTypeFinalMerchant f with
  | some m =>
    if r.category = "transfer" ∨ r.category = "shopping" ∨
        r.category = "food_dining" ∨ r.category = "groceries" ∨
        r.category = "entertainment" ∨ r.category = "travel" ∨
        r.category = "healthcare" ∨ r.category = "fuel" ∨
        r.category = "bills_utilities" then
      { r with
        category := "emi_loan", transaction_type := "loan_payment",
        merchant := m }
    else r
  | none => r

/-- `has_utility_keyword_final` (unlike priority 6 this accepts any telecom
brand combined with any service word). -/
def hasUtilityKeywordFinal (f : TxnText) : Bool :=
  hasUtilityKeywordBase f ||
    ((f.jio || f.airtel || f.vi || f.vodafone || f.bsnl) && hasServiceWord f)

/-- Final safety check: utilities must never stay in transfer or fuel. -/
def safetyUtilities (f : TxnText) (r : NormResult) : NormResult :=
  if hasUtilityKeywordFinal f ∧
      (r.category = "transfer" ∨ r.category = "fuel") then
    let r1 := { r with category := "bills_utilities" }
    if f.msedcl then { r1 with merchant := "MSEDCL" }
    else if f.mseb then { r1 with merchant := "MSEB" }
    else if f.bescom then { r1 with merchant := "BESCOM" }
    else if f.tangedco then { r1 with merchant := "TANGEDCO" }
    else if f.discom then { r1 with merchant := "DISCOM" }
    else if f.electricity || f.power then { r1 with merchant := "Electricity" }
    else if f.gasPayment || f.gasBill || f.lpg then { r1 with merchant := "Gas" }
    else if f.jio then { r1 with merchant := "Jio" }
    else if f.airtel then { r1 with merchant := "Airtel" }
    else if f.vi then { r1 with merchant := "Vi" }
    else if f.vodafone then { r1 with merchant := "Vodafone" }
    else if f.bsnl then { r1 with merchant := "BSNL" }
    else if f.internet then { r1 with merchant := "Internet Service" }
    else if r1.merchant = "Unknown" then { r1 with merchant := "Utility" }
    else r1
  else r

/-- UPI category correction: an unresolved UPI row defaults to a transfer. -/
def upiCorrection (r : NormResult) : NormResult :=
  if r.channel = "UPI" then
    (if r.category = "transfer" ∧ r.merchant = "Unknown" ∧
        ¬(isBrandMerchant r.merchant = true) then
      { r with merchant := "UPI Transfer", category := "transfer" }
    else r)
  else r

/-- Merchant must not stay Unknown when extraction found one. -/
def merchantUnknownFix (f : TxnText) (r : NormResult) : NormResult :=
  if r.merchant = "Unknown" ∧ f.extractedMerchant ≠ "Unknown" then
    { r with merchant := f.extractedMerchant }
  else r

/-- Category a brand key forces in the first brand-final loop. -/
def brandCategoryFor (key : String) : Option String :=
  if key = "SWIGGY" ∨ key = "ZOMATO" ∨ key = "MCDONALD" ∨ key = "KFC" ∨
      key = "DOMINOS" ∨ key = "PIZZA HUT" ∨ key = "SUBWAY" ∨
      key = "HALDIRAM" then some "food_dining"
  else if key = "DMART" ∨ key = "BIG BAZAAR" ∨ key = "BIGBAZAAR" ∨
      key = "SPENCERS" ∨ key = "SPENCER\x27S" ∨ key = "SPENCER" ∨
      key = "RELIANCE" ∨ key = "BIGBASKET" ∨ key = "GROFERS" then
    some "groceries"
  else if key = "PVR" ∨ key = "CINEPOLIS" ∨ key = "BOOKMYSHOW" ∨
      key = "INOX" ∨ key = "CINEMA" ∨ key = "MOVIE" then
    some "entertainment"
  else if key = "AJIO" ∨ key = "AMAZON" ∨ key = "FLIPKART" ∨
      key = "MYNTRA" ∨ key = "PANTALOONS" ∨ key = "WESTSIDE" ∨
      key = "LIFESTYLE" then some "shopping"
  else if key = "LIC" ∨ key = "HDFC LIFE" ∨ key = "HDFCLIFE" then
    some "insurance"
  else none

/-- Final safety check: a brand merchant cannot stay in transfer. -/
def brandFinal (r : NormResult) : NormResult :=
  if r.category = "transfer" then
    let mu := pyUpper r.merchant
    let firstKey := KNOWN_BRANDS.find? (fun kv => containsSub mu kv.1)
    let r1 :=
      match firstKey with
      | some kv =>
        match brandCategoryFor kv.1 with
        | some cat => { r with category := cat }
        | none => r
      | none => r
    if firstKey.isSome ∧ r1.category = "transfer" then
      if ["SWIGGY", "ZOMATO", "MCDONALD", "KFC", "DOMINOS", "PIZZA HUT",
          "SUBWAY", "HALDIRAM"].any (containsSub mu) then
        { r1 with category := "food_dining" }
      else if ["DMART", "BIG BAZAAR", "BIGBAZAAR", "SPENCERS", "SPENCER\x27S",
          "SPENCER", "RELIANCE", "BIGBASKET", "GROFERS"].any
            (containsSub mu) then
        { r1 with category := "groceries" }
      else if ["PVR", "CINEPOLIS", "BOOKMYSHOW", "INOX", "CINEMA",
          "MOVIE"].any (containsSub mu) then
        { r1 with category := "entertainment" }
      else if ["AJIO", "AMAZON", "FLIPKART", "MYNTRA", "PANTALOONS",
          "WESTSIDE", "LIFESTYLE"].any (containsSub mu) then
        { r1 with category := "shopping" }
      else if ["LIC", "HDFC LIFE", "HDFCLIFE"].any (containsSub mu) then
        { r1 with category := "insurance" }
      else { r1 with category := "transfer" }
    else r1
  else r

/-- FIX 4: DTH/broadband/telecom rows must never stay entertainment. -/
def dthFix (f : TxnText) (r : NormResult) : NormResult :=
  if (f.dth || f.fiber || f.broadband || f.airtel || f.jio || f.vi ||
      f.bsnl) ∧ r.category = "entertainment" then
    let r1 := { r with category := "bills_utilities" }
    if f.jio then { r1 with merchant := "Jio" }
    else if f.airtel then { r1 with merchant := "Airtel" }
    else if f.vodafone then { r1 with merchant := "Vodafone" }
    else if f.vi then { r1 with merchant := "Vi" }
    else if f.bsnl then { r1 with merchant := "BSNL" }
    else r1
  else r

/-- Step 5: the final debit/credit override, run last (FIX 1 together with
the Bank-of-India MEDR forcing). -/
def finalDebitCreditOverride (f : TxnText) (debit credit : ℚ)
    (r : NormResult) : NormResult :=
  let credit := if f.medr then 0 else credit
  let r :=
    if f.medr then
      let r := { r with debit_or_credit := "debit" }
      if r.transaction_type = "credit" then
        { r with transaction_type := "debit" }
      else r
    else r
  if debit > 0 ∧ credit = 0 then
    let r := { r with debit_or_credit := "debit" }
    if r.transaction_type = "credit" then
      if r.category = "transfer" then { r with transaction_type := "transfer" }
      else if r.category = "cash" then
        { r with transaction_type := "withdrawal" }
      else if r.category = "bank_charges" then
        { r with transaction_type := "debit" }
      else { r with transaction_type := "debit" }
    else if ¬(r.transaction_type = "debit" ∨ r.transaction_type = "transfer" ∨
        r.transaction_type = "withdrawal") then
      { r with transaction_type := "debit" }
    else r
  else if credit > 0 ∧ debit = 0 then
    { r with debit_or_credit := "credit", transaction_type := "credit" }
  else r

/-- `apply_global_rules` (hybrid_normalizer.py): the absolute-authority rule
engine, composed exactly in source order. -/
def apply_global_rules (f : TxnText) (suggested : NormResult)
    (debit credit : ℚ) : NormResult :=
  let r : NormResult :=
    { transaction_type := suggested.transaction_type,
      merchant := suggested.merchant, channel := suggested.channel,
      debit_or_credit := suggested.debit_or_credit,
      category := pyLower suggested.category }
  let r := if f.extractedMerchant ≠ "Unknown" then
      { r with merchant := f.extractedMerchant }
    else r
  let r := detectChannel f r
  let s := priorityLadder f r debit credit
  let r := applyMatched s r
  let r := safetyAtm f debit r
  let r := safetyRent f r
  let r := safetyEducation f r
  let r := safetyTravel f r
  let r := safetyEmi f r
  let r := safetyUtilities f r
  let r := upiCorrection r
  let r := merchantUnknownFix f r
  let r := brandFinal r
  let r := dthFix f r
  finalDebitCreditOverride f debit credit r

/-! ## normalize_transaction (hybrid_normalizer.py) and the advisory call
(openai_normalizer_enhanced.py) -/

/-- Outcome of one advisory (OpenAI) classification call. -/
inductive AdvisoryReply where
  | json (s : NormResult)   -- well-formed JSON reply
  | malformed               -- JSONDecodeError path
  | authError               -- 401 / invalid_api_key path
  | otherError              -- any other exception
deriving DecidableEq, Repr

/-- `normalize_transaction_with_openai` (openai_normalizer_enhanced.py),
seen from its caller: a well-formed reply is returned; a malformed reply or
any non-credential failure falls back to the rule-based suggestion (with a
lowered confidence marker, not modelled); an invalid credential raises
`RuntimeError` (the `Except.error` value). -/
def normalize_transaction_with_openai (reply : AdvisoryReply)
    (ruleFallback : NormResult) : Except Unit NormResult :=
  match reply with
  | .json s => .ok s
  | .malformed => .ok ruleFallback
  | .authError => .error ()
  | .otherError => .ok ruleFallback

/-- The category normalization table applied to a validated OpenAI reply. -/
def categoryMapping (c : String) : String :=
  if c = "food" then "food_dining"
  else if c = "groceries" then "groceries"
  else if c = "entertainment" then "entertainment"
  else if c = "travel" then "travel"
  else if c = "transport" then "travel"
  else if c = "healthcare" then "healthcare"
  else if c = "health" then "healthcare"
  else if c = "fuel" then "fuel"
  else if c = "utilities" then "bills_utilities"
  else if c = "bills" then "bills_utilities"
  else if c = "bills_utilities" then "bills_utilities"
  else if c = "transfer" then "transfer"
  else if c = "others" then "others"
  else if c = "other" then "others"
  else if c = "cash withdrawal" then "cash"
  else if c = "cash" then "cash"
  else if c = "shopping" then "shopping"
  else c

/-- Validations 1 and 2 of normalize_transaction: does the OpenAI output
contradict the debit/credit columns or any keyword rule? -/
def openaiViolatesRules (f : TxnText) (debit credit : ℚ)
    (s : NormResult) : Bool :=
  let dc := pyLower s.debit_or_credit
  let tt := pyLower s.transaction_type
  let violatesDebitCredit : Bool :=
    if debit > 0 ∧ credit = 0 then dc = "credit" || tt = "credit"
    else if credit > 0 ∧ debit = 0 then dc = "debit" || tt = "debit"
    else false
  let oc := pyLower s.category
  let violatesKeyword : Bool :=
    ((f.atm || f.atmWdl || f.atmCash || f.cashWdl || f.cashWithdrawal) &&
      decide (debit > 0) && !(oc = "cash")) ||
    ((f.swiggy || f.zomato || f.mcdonald || f.kfc || f.burgerKing ||
      f.instamart || f.barbequeNation || f.monchunies || f.dominos ||
      f.subway) && !(oc = "food_dining" || oc = "food")) ||
    ((f.dmart || f.bigBazaar || f.relianceSmart || f.spencers ||
      f.spencerOptS || f.bigbasketWord || f.grofers || f.naturesBasket ||
      f.natureSBasket) && !(oc = "groceries")) ||
    ((f.cinema || f.movie || f.pvr || f.inox || f.bookmyshow ||
      f.cinepolis) && !(oc = "entertainment")) ||
    ((f.ola || f.uber || f.rapido || f.irctc || f.metro || f.redbus ||
      f.pmpml || f.makeMyTrip || f.goibibo) &&
      !(oc = "travel" || oc = "transport")) ||
    ((f.practo || f.gym || f.fitness || f.goldsGym || f.cultFit ||
      f.talwalkars || f.anytimeFitness || f.hospital || f.fortis ||
      f.apollo) && !(oc = "healthcare" || oc = "health")) ||
    ((f.airtel || f.jio || f.vi || f.vodafone || f.bsnl || f.fiber ||
      f.broadband || f.dth || f.electricity || f.gas) &&
      !(oc = "bills_utilities" || oc = "utilities" || oc = "bills")) ||
    ((f.indianOil || f.iocl || f.hp || f.hpcl || f.bpcl ||
      f.bharatPetroleum || f.petrolPump || f.shellKw) && !(oc = "fuel")) ||
    ((f.neft || f.imps || f.rtgs || f.bankTransfer || f.upiP2p) &&
      !(oc = "transfer"))
  violatesDebitCredit || violatesKeyword

/-- The empty-dict suggestion used when OpenAI is disabled (`{}`): every
`.get(key, '')` read in the validation yields the empty string. -/
def emptyAdvisorySuggestion : NormResult :=
  { transaction_type := "", merchant := "", channel := "",
    debit_or_credit := "", category := "" }

/-- `normalize_transaction` (hybrid_normalizer.py): rule suggestion, optional
advisory escalation wrapped in a catch-all `except Exception` that falls
back to the rule suggestion, then `apply_global_rules` as final authority.
`descLen` is the description length and `descDigit30` whether a digit
occurs among its first 30 characters. -/
def normalize_transaction (f : TxnText) (descLen : ℕ) (descDigit30 : Bool)
    (ruleSugg : NormResult) (openaiEnabled : Bool)
    (advisory : Except Unit NormResult) (debit credit : ℚ) : NormResult :=
  let ruleCategory :=
    let c := pyLower ruleSugg.category
    if c = "others" then "transfer" else c
  let ruleMerchant := ruleSugg.merchant
  let isRuleWeak : Bool :=
    ruleCategory = "transfer" || ruleMerchant = "Unknown" || ruleMerchant = ""
  let isSimpleTransfer : Bool :=
    decide (descLen < 20) && ruleCategory = "transfer" && !descDigit30
  let base : NormResult :=
    if isRuleWeak && !isSimpleTransfer then
      if openaiEnabled then
        match advisory with
        | .error _ => ruleSugg    -- except Exception: use rule-based
        | .ok s =>
          if openaiViolatesRules f debit credit s then ruleSugg
          else { s with category := categoryMapping (pyLower s.category) }
      else
        -- openai_suggestion = {} : the validation runs on empty strings
        if openaiViolatesRules f debit credit emptyAdvisorySuggestion then
          ruleSugg
        else
          { transaction_type := "debit", merchant := "Unknown",
            channel := "OTHER", debit_or_credit := "debit", category := "" }
    else ruleSugg
  apply_global_rules f base debit credit

/-! ## extract_central_bank_state_machine (pdf_extractor.py)

A document line is modelled by the outcomes of the fixed patterns the state
machine tests on it: the value-date anchor, the header-skip keywords, the
ignore keywords, the four description patterns (collapsed into the
description string the code would extract, `none` when none matches), the
first `\d{2}/\d{2}/\d{2}` date token, the `[\d,]+\.\d{2}` amount tokens and
the `BY TRF`/`SALARY` credit marker. -/
structure CbiLine where
  anchor : Bool := false        -- `^\d{2}/\d{2}/\d{2}\s+\d{2}/\d{2}/\d{2}`
  headerSkip : Bool := false    -- CARRIED FORWARD / PAGE / ... keyword list
  ignoreKw : Bool := false      -- "TO TRF." / "BY TRF." / "UPI RRN" / ...
  descMatch : Option String := none
  byTrfSalary : Bool := false   -- "BY TRF" or "SALARY" in the upper line
  dateTok : Option String := none
  amounts : List ℚ := []
deriving DecidableEq, Repr

/-- A raw transaction as assembled by the extractor (dictionary fields;
`sr_no` is only set by the table and text paths). -/
structure RawTxn where
  sr_no : ℕ := 0
  date : Option String := none
  description : Option String := none
  reference_number : String := ""
  debit : ℚ := 0
  credit : ℚ := 0
  balance : ℚ := 0
  transaction_type : String := "DEBIT"
  amount : ℚ := 0
deriving DecidableEq, Repr

/-- Seeding a new transaction from an anchor line: date from the first date
token, balance from the last amount, amount from `amounts[-2]` (three or
more tokens) or `amounts[0]` (exactly two), credited when the line carries
`BY TRF`/`SALARY` and debited otherwise. -/
def seedCbiTxn (l : CbiLine) : RawTxn :=
  let t : RawTxn := { date := l.dateTok }
  if 2 ≤ l.amounts.length then
    let t := { t with balance := (l.amounts.getLast?).getD 0 }
    if 3 ≤ l.amounts.length then
      let amount := (l.amounts.get? (l.amounts.length - 2)).getD 0
      if l.byTrfSalary then
        { t with
          credit := amount, transaction_type := "CREDIT",
          amount := amount }
      else
        { t with
          debit := amount, transaction_type := "DEBIT",
          amount := amount }
    else
      let amount := (l.amounts.get? 0).getD 0
      if l.byTrfSalary then
        { t with
          credit := amount, transaction_type := "CREDIT",
          amount := amount }
      else
        { t with
          debit := amount, transaction_type := "DEBIT",
          amount := amount }
  else t

/-- Python truthiness of the description field: `None` and `""` are falsy. -/
def blankDesc (t : RawTxn) : Bool :=
  match t.description with
  | none => true
  | some d => d = ""

/-- State of the two-state line machine. -/
structure CbiState where
  txns : List RawTxn := []
  current : Option RawTxn := none
  reading : Bool := false     -- false = WAIT_FOR_TRANSACTION
deriving DecidableEq, Repr

/-- Finalizing the current transaction on a new anchor or at end of
document: a missing description raises (`ValueError`). -/
def finalizeCbi (cur : Option RawTxn) (txns : List RawTxn) :
    Except String (List RawTxn) :=
  match cur with
  | none => .ok txns
  | some t =>
    if blankDesc t then
      .error "Transaction has no description - extraction failed"
    else .ok (txns ++ [t])

/-- One line step of the state machine. -/
def stepCbiLine (s : CbiState) (l : CbiLine) : Except String CbiState :=
  -- header/footer skip applies only to non-anchor lines
  if !l.anchor && l.headerSkip then .ok s
  else if !s.reading then
    -- WAIT_FOR_TRANSACTION
    if l.anchor then
      match finalizeCbi s.current s.txns with
      | .error e => .error e
      | .ok txns =>
        .ok { txns := txns, current := some (seedCbiTxn l), reading := true }
    else .ok s
  else
    -- READ_TRANSACTION_LINES
    if l.anchor then
      match finalizeCbi s.current s.txns with
      | .error e => .error e
      | .ok txns =>
        .ok { txns := txns, current := some (seedCbiTxn l), reading := true }
    else if l.descMatch.isNone && l.ignoreKw then .ok s
    else
      match s.current with
      | some t =>
        if blankDesc t then
          match l.descMatch with
          | some d => .ok { s with current := some { t with description := some d } }
          | none => .ok s
        else .ok s
      | none => .ok s

/-- Folding the machine over the document lines. -/
def runCbiLines : CbiState → List CbiLine → Except String CbiState
  | s, [] => .ok s
  | s, l :: ls =>
    match stepCbiLine s l with
    | .error e => .error e
    | .ok s2 => runCbiLines s2 ls

/-- The consecutive-duplicate validation after the machine: the same
description more than three times in a row raises. -/
def cbiConsecutiveCheck (txns : List RawTxn) : Except String Unit :=
  go txns 0 none
where
  go : List RawTxn → ℕ → Option String → Except String Unit
    | [], _, _ => .ok ()
    | t :: ts, count, last =>
      let desc := (t.description).getD ""
      if last = some desc then
        if count + 1 > 3 then
          .error "Extraction validation failed: same description repeats consecutively"
        else go ts (count + 1) last
      else go ts 1 (some desc)

/-- `extract_central_bank_state_machine` over the collected document lines:
run the machine, finalize the last transaction, then run the
consecutive-duplicate validation. -/
def extract_central_bank_state_machine (lines : List CbiLine) :
    Except String (List RawTxn) :=
  match runCbiLines {} lines with
  | .error e => .error e
  | .ok s =>
    match finalizeCbi s.current s.txns with
    | .error e => .error e
    | .ok txns =>
      match cbiConsecutiveCheck txns with
      | .error e => .error e
      | .ok _ => .ok txns

/-- The Central-Bank hard validation of
`extract_from_table_universal_improved` (same description, two different
positive debit amounts): the violation condition of the
description-to-debit-set map. -/
def cbiDescViolation (txns : List RawTxn) : Bool :=
  txns.any (fun t1 => txns.any (fun t2 =>
    decide (t1.debit > 0) && decide (t2.debit > 0) &&
    pyStrip ((t1.description).getD "") = pyStrip ((t2.description).getD "") &&
    !(pyStrip ((t1.description).getD "") = "") &&
    !(t1.debit = t2.debit)))

/-- The `raise ValueError` layer of that validation. -/
def centralBankHardValidation (txns : List RawTxn) :
    Except String (List RawTxn) :=
  if cbiDescViolation txns then
    .error "CENTRAL BANK EXTRACTION ERROR: duplicate descriptions with different debit amounts"
  else .ok txns

/-- `extract_transactions_universal` dispatch for Central Bank of India:
the pipeline returns the state machine's output directly; the table-path
hard validation is never reached for this bank. -/
def extract_transactions_universal_cbi (lines : List CbiLine) :
    Except String (List RawTxn) :=
  extract_central_bank_state_machine lines

/-! ## extract_from_table_universal_improved: row finalization layers -/

/-- Structural validation rule 1 (all banks): debit and credit cannot both
be positive; an integer above 100000 looks like a reference number and is
cleared first, else the larger value wins. -/
def structural_rule1 (debit credit : ℚ) : ℚ × ℚ :=
  if debit > 0 ∧ credit > 0 then
    if debit.den = 1 ∧ debit > 100000 then (0, credit)
    else if credit.den = 1 ∧ credit > 100000 then (debit, 0)
    else if debit > credit then (debit, 0)
    else (0, credit)
  else (debit, credit)

/-- The debit/credit authority rule: `transaction_type` and `amount` come
only from which of debit/credit is positive; otherwise the row is skipped
(`none`). -/
def debit_credit_authority (debit credit : ℚ) : Option (String × ℚ) :=
  if debit > 0 ∧ credit = 0 then some ("DEBIT", debit)
  else if credit > 0 ∧ debit = 0 then some ("CREDIT", credit)
  else none

/-- The final Union-Bank transaction-ID guard before creation.  Its
predicate over the original cell string and the float repr is abstracted
into the two Booleans (`clearDebitId`, `clearCreditId`); only its effect
— zeroing the flagged field — matters to the properties proved here, which
hold for every outcome of the predicate. -/
def union_final_clear (isUnionBank clearDebitId clearCreditId : Bool)
    (debit credit : ℚ) : ℚ × ℚ :=
  let d := if isUnionBank ∧ debit > 0 ∧ clearDebitId then 0 else debit
  let c := if isUnionBank ∧ credit > 0 ∧ clearCreditId then 0 else credit
  (d, c)

/-- The tail of the row loop of `extract_from_table_universal_improved`:
structural validation, authority rule, Union final guard, then transaction
creation (`if date and (debit_amt > 0 or credit_amt > 0)`). -/
def finalize_table_row (isUnionBank clearDebitId clearCreditId : Bool)
    (srNo : ℕ) (date description refStr : String)
    (debit credit balance : ℚ) : Option RawTxn :=
  let dc := structural_rule1 debit credit
  match debit_credit_authority dc.1 dc.2 with
  | none => none
  | some ta =>
    let dc2 := union_final_clear isUnionBank clearDebitId clearCreditId dc.1 dc.2
    if ¬(date = "") ∧ (dc2.1 > 0 ∨ dc2.2 > 0) then
      some { sr_no := srNo, date := some (pyStrip date),
             description := some (if description ≠ "" then description
               else "Transaction"),
             reference_number := pyStrip refStr,
             debit := dc2.1, credit := dc2.2, balance := balance,
             transaction_type := ta.1, amount := ta.2 }
    else none

/-- The all-banks amount-source validation (non-Union): a credit that equals
some number found in the description text and is an integer above 1000 is
treated as a reference identifier and cleared (the debit branch of the loop
is a no-op `pass`). -/
def amount_source_validation (description : String) (descHasMedr : Bool)
    (credit : ℚ) : ℚ :=
  if description = "" then credit
  else
    (findAllNumbers description).foldl
      (fun c num =>
        if |num - c| < 1/100 ∧ num > 0 ∧ ¬(descHasMedr = true) ∧
            c.den = 1 ∧ c > 1000 then 0
        else c)
      credit

/-- Amount extraction and finalization for a table row of a bank with no
bank-specific fix-up layer (for instance "HDFC Bank"): debit/credit parsed
from their columns, the all-banks amount-source validation, then
`finalize_table_row`.  The both-cells-zero fallback that searches every
column is modelled as a skipped row (`none`); every use below has a
positive primary cell, so that branch is never taken. -/
def extract_row_generic_bank (srNo : ℕ)
    (date description refStr debitCell creditCell balanceCell : String)
    (descHasMedr : Bool) : Option RawTxn :=
  let debit := parse_amount_improved debitCell
  let credit := parse_amount_improved creditCell
  if debit = 0 ∧ credit = 0 then none
  else
    let credit := amount_source_validation description descHasMedr credit
    finalize_table_row false false false srNo date description refStr
      debit credit (parse_amount_improved balanceCell)

/-- `extract_from_text_fallback` (pdf_extractor.py), one line: `date` is
the date-pattern match (`none` skips the line), `amounts` the matched
`[\d,]+\.\d{2}` tokens, `description` the residual text after removing
dates and amounts (with `normalize_description`, whose only non-identity
case substitutes a fixed nonempty string, taken as already applied).
Three or more amount tokens are read as debit, credit, balance; two as
amount, balance; one as a single amount. -/
def extract_from_text_fallback_line (srNo : ℕ) (date : Option String)
    (description : String) (amounts : List String) : Option RawTxn :=
  match date with
  | none => none
  | some d =>
    if 1 ≤ amounts.length then
      let a0 := (amounts.get? 0).getD ""
      let a1 := (amounts.get? 1).getD ""
      let a2 := (amounts.get? 2).getD ""
      let dcb : ℚ × ℚ × ℚ :=
        if 3 ≤ amounts.length then
          (parse_amount_improved a0, parse_amount_improved a1,
            parse_amount_improved a2)
        else if amounts.length = 2 then
          let amount := parse_amount_improved a0
          (if amount > 0 then amount else 0,
            if amount > 0 then 0 else |amount|,
            parse_amount_improved a1)
        else
          let amount := parse_amount_improved a0
          (if amount > 0 then amount else 0,
            if amount > 0 then 0 else |amount|, 0)
      let debit := dcb.1
      let credit := dcb.2.1
      let balance := dcb.2.2
      if debit > 0 ∨ credit > 0 then
        some { sr_no := srNo, date := some d,
               description := some (if description = "" then "Transaction"
                 else description),
               reference_number := "", debit := debit, credit := credit,
               balance := balance,
               transaction_type := if debit > 0 then "DEBIT" else "CREDIT",
               amount := if debit > 0 then debit else credit }
      else none
    else none

/-- The RawTransaction amount invariant claimed by the specification:
exactly one of debit/credit is positive and `amount` equals it. -/
def rawTxnExclusive (t : RawTxn) : Prop :=
  (t.debit > 0 ∧ t.credit = 0 ∧ t.amount = t.debit) ∨
  (t.credit > 0 ∧ t.debit = 0 ∧ t.amount = t.credit)

instance (t : RawTxn) : Decidable (rawTxnExclusive t) := by
  unfold rawTxnExclusive; infer_instance

/-! ## Union Bank golden-rule validation layers -/

/-- Cell cleaning of the Format-1 validation: drop commas and spaces, strip,
drop currency symbols. -/
def unionCellCleaned (cell : String) : String :=
  dropCurrency (pyStrip (dropChar ' ' (dropChar ',' cell)))

/-- Format-1 cell validation (dedicated Debit/Credit columns): the parsed
value is rejected as a transaction ID when it equals the Tran Id, when its
first digit run exceeds six digits with no decimal point in the cell, or
when it is an integer above 100000 with no decimal point.  Returns the
debit (or credit) amount after the cell is processed, starting from the
value the generic parse had produced. -/
def union_format1_cell (cell : String) (tranIdNumeric : Option ℤ)
    (prior : ℚ) : ℚ :=
  if ¬(cell = "") then
    let v := parse_amount_improved cell
    let validTran : Bool := match tranIdNumeric with
      | some t => decide (¬(|v - (t : ℚ)| < 1/100))
      | none => true
    let validDigits : Bool :=
      !(decide (6 < (firstDigitRun (unionCellCleaned cell)).length) &&
        !(containsChar cell '.'))
    let validLarge : Bool :=
      !(decide (v.den = 1 ∧ v > 100000) && !(containsChar cell '.'))
    if validTran && validDigits && validLarge then
      (if v > 0 then v else prior)
    else 0
  else prior

/-- One step of `re.sub(r'\(?\s*(DR|CR|Dr|Cr)\s*\)?', '', s, IGNORECASE)` at
the head of the list: optional open paren, spaces, a case-insensitive
dr/cr, spaces, optional close paren. -/
def matchDrCrParen (l : List Char) : Option (List Char) :=
  let l1 := match l with
    | '(' :: r => r
    | _ => l
  let l2 := l1.dropWhile isSpaceChar
  match l2 with
  | a :: b :: r =>
    if (a.toLower = 'd' ∨ a.toLower = 'c') ∧ b.toLower = 'r' then
      let r2 := r.dropWhile isSpaceChar
      match r2 with
      | ')' :: r3 => some r3
      | _ => some r2
    else none
  | _ => none

/-- Full dr/cr-with-parens substitution, scanning left to right. -/
def dropDrCrParenGo : ℕ → List Char → List Char
  | 0, l => l
  | _ + 1, [] => []
  | fuel + 1, c :: cs =>
    match matchDrCrParen (c :: cs) with
    | some rest => dropDrCrParenGo fuel rest
    | none => c :: dropDrCrParenGo fuel cs

/-- The Format-2 amount-column cleaning of the Union branch. -/
def unionAmountCleaned (amount_str : String) : String :=
  let afterSub : String := ⟨dropDrCrParenGo (amount_str.length + 1) (chars amount_str)⟩
  dropCurrency (pyStrip (dropChar ' ' (dropChar ',' afterSub)))

/-- Format-2 (single Amount column) validation: the parsed amount survives
only when it is positive and passes the three transaction-ID checks; a
detected transaction ID makes the code skip the row entirely.  `none`
means no amount was assigned from this cell (zero parse or skipped row);
`some v` is the assigned monetary amount. -/
def union_format2_amount (amount_str : String) (tranIdNumeric : Option ℤ) :
    Option ℚ :=
  if pyStrip amount_str = "" then none
  else
    let cleaned := unionAmountCleaned amount_str
    let parsed := parse_amount_improved cleaned
    if parsed > 0 then
      let invalid : Bool :=
        (decide (6 < (digitsOf cleaned).length) && !(containsChar amount_str '.')) ||
        (match tranIdNumeric with
          | some t => decide (|parsed - (t : ℚ)| < 1/100)
          | none => false) ||
        (decide (parsed.den = 1 ∧ parsed > 100000) && !(containsChar amount_str '.'))
      if invalid then none else some parsed
    else none

/-! ## services/pdf_processor.py and db/insert_bank_statements.py -/

/-- Default of `os.getenv('MAX_NORMALIZE_TRANSACTIONS', '300')`. -/
def MAX_NORMALIZE_TRANSACTIONS : ℕ := 300

/-- Step 3 of `process_pdf_to_mongodb`: only the first `maxTxns` extracted
transactions are submitted to the normalization pool; a transaction whose
normalization raises is logged and dropped (`none`), the rest keep their
original order. -/
def process_pdf_normalized {α : Type} (normalize : RawTxn → Option α)
    (transactions : List RawTxn) (maxTxns : ℕ) : List (RawTxn × α) :=
  (transactions.take maxTxns).filterMap
    (fun t => (normalize t).map (fun n => (t, n)))

/-- Step 7 of `process_pdf_to_mongodb`: the insertion loop runs over
`normalized_transactions[:300]`. -/
def process_pdf_inserted {α : Type} (normalize : RawTxn → Option α)
    (transactions : List RawTxn) (maxTxns : ℕ) : List (RawTxn × α) :=
  (process_pdf_normalized normalize transactions maxTxns).take 300

/-- `process_json_file` (db/insert_bank_statements.py): the insertion loop
runs over `transactions[:300]`. -/
def process_json_file_inserted {α : Type} (transactions : List α) : List α :=
  transactions.take 300

/-! ## extract_account_info / validate_and_ensure_required_fields -/

/-- The two required account fields; `none` models a null value. -/
structure AccountRecord where
  account_number : Option String := none
  account_holder : Option String := none
deriving DecidableEq, Repr

/-- Python falsiness of `account_info.get(k)` / blank after `.strip()`. -/
def isBlankOpt : Option String → Bool
  | none => true
  | some s => pyStrip s = ""

/-- Final normalization of the two fields (`str(...).strip()`, holder also
uppercased). -/
def finalizeAccountFields (r : AccountRecord) : AccountRecord :=
  { account_number := some (pyStrip ((r.account_number).getD "")),
    account_holder := some (pyUpper (pyStrip ((r.account_holder).getD ""))) }

/-- `validate_and_ensure_required_fields` (pdf_extractor.py): last-resort
extraction for each missing field, raising `ValueError` when a field stays
unresolved.  The `Except.error` value carries the state of the (mutated in
place) record at raise time.  `aggressiveNumber`, `filenameHolder` and
`aggressiveHolder` are the outcomes of the three last-resort extraction
helpers. -/
def validate_and_ensure_required_fields (rec : AccountRecord)
    (aggressiveNumber filenameHolder aggressiveHolder : Option String) :
    Except AccountRecord AccountRecord :=
  let step1 : Except AccountRecord AccountRecord :=
    if isBlankOpt rec.account_number then
      match aggressiveNumber with
      | some n => .ok { rec with account_number := some n }
      | none => .error rec
    else .ok rec
  match step1 with
  | .error r => .error r
  | .ok rec1 =>
    if isBlankOpt rec1.account_holder then
      match filenameHolder with
      | some h =>
        .ok (finalizeAccountFields { rec1 with account_holder := some h })
      | none =>
        match aggressiveHolder with
        | some h =>
          .ok (finalizeAccountFields { rec1 with account_holder := some h })
        | none => .error rec1
    else .ok (finalizeAccountFields rec1)

/-- The tail of `extract_account_info`: the final validation runs inside the
function's catch-all `try/except`, whose handler prints the error and falls
through to `return account_info` — so a validation failure returns the
record with its unresolved (null) fields instead of propagating. -/
def extract_account_info (rec : AccountRecord)
    (aggressiveNumber filenameHolder aggressiveHolder : Option String) :
    AccountRecord :=
  match validate_and_ensure_required_fields rec aggressiveNumber
      filenameHolder aggressiveHolder with
  | .ok r => r
  | .error r => r

/-! ## Concrete documents used as evaluation inputs -/

/-- A Central Bank anchor line
`01/01/24 01/01/24 TO TRF. 100.00 900.00`. -/
def cbiAnchor1 : CbiLine :=
  { anchor := true, ignoreKw := true, dateTok := some "01/01/24",
    amounts := [100, 900] }

/-- A Central Bank description line `TRF TO FOO`. -/
def cbiDescLine : CbiLine := { descMatch := some "TRF TO FOO" }

/-- A second anchor line `02/01/24 02/01/24 TO TRF. 200.00 700.00`. -/
def cbiAnchor2 : CbiLine :=
  { anchor := true, ignoreKw := true, dateTok := some "02/01/24",
    amounts := [200, 700] }

/-- The two transactions the line machine extracts from that document:
identical final descriptions, different positive debit amounts. -/
def cbiDupTxns : List RawTxn :=
  [{ date := some "01/01/24", description := some "TRF TO FOO",
     debit := 100, balance := 900, transaction_type := "DEBIT",
     amount := 100 },
   { date := some "02/01/24", description := some "TRF TO FOO",
     debit := 200, balance := 700, transaction_type := "DEBIT",
     amount := 200 }]

/-! ## Description-provenance invariant of the CBI line machine -/

/-- A finalized CBI transaction has a nonempty description coming from the
`descMatch` of some document line. -/
def cbiInvTx (L : List CbiLine) (t : RawTxn) : Prop :=
  ∃ d, t.description = some d ∧ ¬(d = "") ∧ ∃ l ∈ L, l.descMatch = some d

/-- The in-progress transaction either has no description yet or one taken
from the `descMatch` of some document line. -/
def cbiInvCur (L : List CbiLine) : Option RawTxn → Prop
  | none => True
  | some t => ∀ d, t.description = some d → ∃ l ∈ L, l.descMatch = some d

/-- The machine-state invariant: both components. -/
def cbiInv (L : List CbiLine) (s : CbiState) : Prop :=
  (∀ t ∈ s.txns, cbiInvTx L t) ∧ cbiInvCur L s.current

/-! ## Helper lemmas about the rule ladder -/

theorem tryRule_of_le {s : MatchSt} (c : Bool) (k : ℕ)
    (upd : MatchSt → MatchSt) (h : s.priority ≤ k) :
    tryRule c k upd s = s := by
  unfold tryRule
  cases c <;> simp [Nat.not_lt.mpr h]

theorem tryRule_fires {s : MatchSt} {c : Bool} (k : ℕ)
    (upd : MatchSt → MatchSt) (hc : c = true) (h : k < s.priority) :
    tryRule c k upd s = upd s := by
  unfold tryRule
  simp [hc, h]

theorem transferRule_of_ne (f : TxnText) (r : NormResult) (d c : ℚ)
    {s : MatchSt} (h : s.priority ≠ 999) :
    transferRule f r d c s = s := by
  unfold transferRule
  simp [h]

/-- When any EMI/loan keyword is present, the ladder resolves to the
priority-1 EMI match and nothing below can replace it. -/
theorem priorityLadder_emi (f : TxnText) (r : NormResult) (d c : ℚ)
    (h : hasEmiLoanKeyword f = true) :
    priorityLadder f r d c =
      { priority := 1, category := some "emi_loan",
        transaction_type := some "loan_payment",
        merchant := some (p1LoanMerchant f f.extractedMerchant) } := by
  simp [priorityLadder, tryRule, transferRule, h]

/-- When no EMI/education/travel-booking keyword is present and the text is
an ATM row that is not a cash deposit, the ladder resolves to the
priority-4 ATM match. -/
theorem priorityLadder_atm (f : TxnText) (r : NormResult) (d c : ℚ)
    (h1 : hasEmiLoanKeyword f = false) (h2 : hasEducationKeyword f = false)
    (h3 : hasTravelBookingKeyword f = false)
    (h4 : (f.atwDash || f.atm) = true) (h5 : isCashDepositText f = false) :
    priorityLadder f r d c =
      { priority := 4, category := some "cash",
        merchant := some "ATM Withdrawal",
        transaction_type := some "withdrawal", channel := some "ATM",
        debit_or_credit := some "debit" } := by
  simp [priorityLadder, tryRule, transferRule, h1, h2, h3, h4, h5]

/-! ## Helper lemmas about the final safety passes -/

theorem safetyAtm_of_cat {f : TxnText} {d : ℚ} {r : NormResult}
    (h : ¬(r.category = "shopping" ∨ r.category = "groceries" ∨
      r.category = "food_dining" ∨ r.category = "travel" ∨
      r.category = "transfer")) : safetyAtm f d r = r := by
  unfold safetyAtm
  rw [if_neg]
  rintro ⟨-, -, hc⟩
  exact h hc

theorem safetyRent_of_cat {f : TxnText} {r : NormResult}
    (h : ¬(r.category = "transfer")) : safetyRent f r = r := by
  unfold safetyRent
  rw [if_neg]
  rintro ⟨-, hc⟩
  exact h hc

theorem safetyEducation_of_cat {f : TxnText} {r : NormResult}
    (h : ¬(r.category = "transfer" ∨ r.category = "others" ∨
      r.category = "shopping")) : safetyEducation f r = r := by
  unfold safetyEducation
  cases hm : educationTypeFinal f
  · rfl
  · exact if_neg h

theorem safetyTravel_of_cat {f : TxnText} {r : NormResult}
    (h : ¬(r.category = "transfer" ∨ r.category = "others")) :
    safetyTravel f r = r := by
  unfold safetyTravel
  rw [if_neg]
  rintro ⟨-, hc⟩
  exact h hc

theorem safetyEmi_of_cat {f : TxnText} {r : NormResult}
    (h : ¬(r.category = "transfer" ∨ r.category = "shopping" ∨
      r.category = "food_dining" ∨ r.category = "groceries" ∨
      r.category = "entertainment" ∨ r.category = "travel" ∨
      r.category = "healthcare" ∨ r.category = "fuel" ∨
      r.category = "bills_utilities")) : safetyEmi f r = r := by
  unfold safetyEmi
  cases hm : loanTypeFinalMerchant f
  · rfl
  · exact if_neg h

theorem safetyUtilities_of_cat {f : TxnText} {r : NormResult}
    (h : ¬(r.category = "transfer" ∨ r.category = "fuel")) :
    safetyUtilities f r = r := by
  unfold safetyUtilities
  rw [if_neg]
  rintro ⟨-, hc⟩
  exact h hc

theorem upiCorrection_of_cat {r : NormResult}
    (h : ¬(r.category = "transfer")) : upiCorrection r = r := by
  unfold upiCorrection
  by_cases hc : r.channel = "UPI"
  · rw [if_pos hc, if_neg]
    rintro ⟨hcat, -⟩
    exact h hcat
  · exact if_neg hc

theorem merchantUnknownFix_of_merchant {f : TxnText} {r : NormResult}
    (h : ¬(r.merchant = "Unknown")) : merchantUnknownFix f r = r := by
  unfold merchantUnknownFix
  rw [if_neg]
  rintro ⟨hm, -⟩
  exact h hm

theorem merchantUnknownFix_category (f : TxnText) (r : NormResult) :
    (merchantUnknownFix f r).category = r.category := by
  unfold merchantUnknownFix
  split <;> rfl

theorem brandFinal_of_cat {r : NormResult}
    (h : ¬(r.category = "transfer")) : brandFinal r = r := by
  unfold brandFinal
  exact if_neg h

theorem dthFix_of_cat {f : TxnText} {r : NormResult}
    (h : ¬(r.category = "entertainment")) : dthFix f r = r := by
  unfold dthFix
  rw [if_neg]
  rintro ⟨-, hc⟩
  exact h hc

theorem finalDebitCreditOverride_category (f : TxnText) (debit credit : ℚ)
    (r : NormResult) :
    (finalDebitCreditOverride f debit credit r).category = r.category := by
  simp only [finalDebitCreditOverride]
  split_ifs <;> rfl

/-- The passes after step 3 keep the category of a result already resolved
to `emi_loan`. -/
theorem finalize_passes_keep_emi (f : TxnText) (d c : ℚ) (R : NormResult)
    (hR : R.category = "emi_loan") :
    (finalDebitCreditOverride f d c (dthFix f (brandFinal
      (merchantUnknownFix f (upiCorrection (safetyUtilities f (safetyEmi f
        (safetyTravel f (safetyEducation f (safetyRent f
          (safetyAtm f d R))))))))))).category = "emi_loan" := by
  rw [safetyAtm_of_cat (by simp [hR]), safetyRent_of_cat (by simp [hR]),
    safetyEducation_of_cat (by simp [hR]), safetyTravel_of_cat (by simp [hR]),
    safetyEmi_of_cat (by simp [hR]), safetyUtilities_of_cat (by simp [hR]),
    upiCorrection_of_cat (by simp [hR]),
    finalDebitCreditOverride_category,
    brandFinal_of_cat (by simp [merchantUnknownFix_category, hR]),
    dthFix_of_cat (by simp [merchantUnknownFix_category, hR]),
    merchantUnknownFix_category, hR]

/-- Category of the final authority for an EMI row: regardless of the
suggestion, the amounts and any other keyword, the category is
`emi_loan`. -/
theorem apply_global_rules_emi (f : TxnText) (sugg : NormResult)
    (debit credit : ℚ) (h : hasEmiLoanKeyword f = true) :
    (apply_global_rules f sugg debit credit).category = "emi_loan" := by
  simp only [apply_global_rules]
  rw [priorityLadder_emi _ _ _ _ h]
  exact finalize_passes_keep_emi f debit credit _ (by simp [applyMatched])

/-- The final authority resolves a debit ATM row (no cash deposit, no
EMI/education/travel-booking keyword) to the full ATM-withdrawal result. -/
theorem apply_global_rules_atm (f : TxnText) (sugg : NormResult)
    (debit credit : ℚ)
    (h1 : hasEmiLoanKeyword f = false) (h2 : hasEducationKeyword f = false)
    (h3 : hasTravelBookingKeyword f = false)
    (h4 : (f.atwDash || f.atm) = true) (h5 : isCashDepositText f = false)
    (hd : debit > 0) (hc : credit = 0) :
    apply_global_rules f sugg debit credit =
      { category := "cash", merchant := "ATM Withdrawal", channel := "ATM",
        transaction_type := "withdrawal", debit_or_credit := "debit" } := by
  simp only [apply_global_rules]
  rw [priorityLadder_atm _ _ _ _ h1 h2 h3 h4 h5]
  rw [show ∀ r, applyMatched
      { priority := 4, category := some "cash",
        merchant := some "ATM Withdrawal",
        transaction_type := some "withdrawal", channel := some "ATM",
        debit_or_credit := some "debit" } r =
      { category := "cash", merchant := "ATM Withdrawal", channel := "ATM",
        transaction_type := "withdrawal", debit_or_credit := "debit" } from
    fun r => by simp [applyMatched]]
  rw [safetyAtm_of_cat (by simp), safetyRent_of_cat (by simp),
    safetyEducation_of_cat (by simp), safetyTravel_of_cat (by simp),
    safetyEmi_of_cat (by simp), safetyUtilities_of_cat (by simp),
    upiCorrection_of_cat (by simp), merchantUnknownFix_of_merchant (by simp),
    brandFinal_of_cat (by simp), dthFix_of_cat (by simp)]
  by_cases hm : f.medr = true <;>
    simp [finalDebitCreditOverride, hm, hd, hc]

/-- The last step derives the direction from the amounts alone — except
that a MEDR row forces the debit direction even on a credit-only row. -/
theorem finalDebitCreditOverride_direction (f : TxnText)
    (debit credit : ℚ) (r : NormResult) :
    (debit > 0 ∧ credit = 0 →
      (finalDebitCreditOverride f debit credit r).debit_or_credit = "debit" ∧
      ¬((finalDebitCreditOverride f debit credit r).transaction_type =
        "credit"))
    ∧ (credit > 0 ∧ debit = 0 ∧ f.medr = false →
      (finalDebitCreditOverride f debit credit r).debit_or_credit =
        "credit" ∧
      (finalDebitCreditOverride f debit credit r).transaction_type =
        "credit") := by
  constructor
  · rintro ⟨hd, hc⟩
    simp only [finalDebitCreditOverride]
    split_ifs <;> simp_all
  · rintro ⟨hcr, hd, hm⟩
    simp only [finalDebitCreditOverride, hm]
    split_ifs <;> simp_all [lt_irrefl]

/-! ## Helper lemmas about the CBI line machine -/

theorem seedCbiTxn_desc (l : CbiLine) : (seedCbiTxn l).description = none := by
  simp only [seedCbiTxn]
  split_ifs <;> rfl

theorem blankDesc_false {t : RawTxn} (h : blankDesc t = false) :
    ∃ d, t.description = some d ∧ ¬(d = "") := by
  cases hd : t.description with
  | none => simp [blankDesc, hd] at h
  | some d =>
    refine ⟨d, rfl, ?_⟩
    simp [blankDesc, hd] at h
    exact h

theorem finalizeCbi_ok {cur : Option RawTxn} {txns txns' : List RawTxn}
    (h : finalizeCbi cur txns = .ok txns') :
    txns' = txns ∨
    ∃ t, cur = some t ∧ blankDesc t = false ∧ txns' = txns ++ [t] := by
  cases cur with
  | none =>
    left
    simp only [finalizeCbi] at h
    injection h with h
    exact h.symm
  | some t =>
    right
    simp only [finalizeCbi] at h
    cases hb : blankDesc t with
    | true => rw [hb] at h; simp at h
    | false =>
      rw [hb] at h
      simp only [if_false, Bool.false_eq_true] at h
      refine ⟨t, rfl, hb, ?_⟩
      injection h with h
      exact h.symm

theorem stepCbi_inv {L : List CbiLine} {s : CbiState} {l : CbiLine}
    {s2 : CbiState} (hl : l ∈ L) (hs : cbiInv L s)
    (h : stepCbiLine s l = .ok s2) : cbiInv L s2 := by
  obtain ⟨hstx, hscur⟩ := hs
  simp only [stepCbiLine] at h
  split_ifs at h with hskip hread hanc hanc2 hign
  · injection h with h; subst h; exact ⟨hstx, hscur⟩
  · -- WAIT, anchor: finalize then seed
    cases hfin : finalizeCbi s.current s.txns with
    | error e => rw [hfin] at h; exact Except.noConfusion h
    | ok txns =>
      rw [hfin] at h
      injection h with h
      subst h
      refine ⟨?_, ?_⟩
      · intro t ht
        rcases finalizeCbi_ok hfin with heq | ⟨t0, hc0, hb0, heq⟩
        · subst heq; exact hstx t ht
        · subst heq
          rcases List.mem_append.mp ht with hmem | hmem
          · exact hstx t hmem
          · rcases List.mem_singleton.mp hmem with rfl
            obtain ⟨d, hd, hde⟩ := blankDesc_false hb0
            rw [hc0] at hscur
            exact ⟨d, hd, hde, hscur d hd⟩
      · intro d hd
        rw [seedCbiTxn_desc] at hd
        exact Option.noConfusion hd
  · injection h with h; subst h; exact ⟨hstx, hscur⟩
  · -- READ, anchor
    cases hfin : finalizeCbi s.current s.txns with
    | error e => rw [hfin] at h; exact Except.noConfusion h
    | ok txns =>
      rw [hfin] at h
      injection h with h
      subst h
      refine ⟨?_, ?_⟩
      · intro t ht
        rcases finalizeCbi_ok hfin with heq | ⟨t0, hc0, hb0, heq⟩
        · subst heq; exact hstx t ht
        · subst heq
          rcases List.mem_append.mp ht with hmem | hmem
          · exact hstx t hmem
          · rcases List.mem_singleton.mp hmem with rfl
            obtain ⟨d, hd, hde⟩ := blankDesc_false hb0
            rw [hc0] at hscur
            exact ⟨d, hd, hde, hscur d hd⟩
      · intro d hd
        rw [seedCbiTxn_desc] at hd
        exact Option.noConfusion hd
  · injection h with h; subst h; exact ⟨hstx, hscur⟩
  · -- READ, non-anchor, desc line
    split at h
    · rename_i t heq
      split_ifs at h with hb
      · split at h
        · rename_i d hdm
          injection h with h
          subst h
          refine ⟨hstx, ?_⟩
          intro d2 hd2
          injection hd2 with hd2
          subst hd2
          exact ⟨l, hl, hdm⟩
        · injection h with h; subst h; exact ⟨hstx, hscur⟩
      · injection h with h; subst h; exact ⟨hstx, hscur⟩
    · injection h with h; subst h; exact ⟨hstx, hscur⟩

theorem runCbi_inv {L : List CbiLine} :
    ∀ (lines : List CbiLine) (s s2 : CbiState), (∀ l ∈ lines, l ∈ L) →
    cbiInv L s → runCbiLines s lines = .ok s2 → cbiInv L s2 := by
  intro lines
  induction lines with
  | nil =>
    intro s s2 _ hs h
    simp only [runCbiLines] at h
    injection h with h
    subst h
    exact hs
  | cons l ls ih =>
    intro s s2 hsub hs h
    simp only [runCbiLines] at h
    cases hstep : stepCbiLine s l with
    | error e => rw [hstep] at h; exact Except.noConfusion h
    | ok s1 =>
      rw [hstep] at h
      exact ih s1 s2 (fun x hx => hsub x (List.mem_cons_of_mem l hx))
        (stepCbi_inv (hsub l (List.mem_cons_self l ls)) hs hstep) h

/-! ## Claim theorems -/

/-- C1 counterexample: on the plain-text line
`12/01/24 FOO 100.00 200.00 300.00` the text fallback emits a transaction
with debit 100 and credit 200 both positive, refuting the claimed
exclusivity invariant for the text-fallback path. -/
theorem C1_counterexample :
    extract_from_text_fallback_line 1 (some "12/01/24") "FOO"
      ["100.00", "200.00", "300.00"] =
      some { sr_no := 1, date := some "12/01/24",
             description := some "FOO", debit := 100, credit := 200,
             balance := 300, transaction_type := "DEBIT", amount := 100 } ∧
    ¬ rawTxnExclusive
      { sr_no := 1, date := some "12/01/24", description := some "FOO",
        debit := 100, credit := 200, balance := 300,
        transaction_type := "DEBIT", amount := 100 } := by
  constructor
  · simp [extract_from_text_fallback_line, parse_amount_improved, pyStrip,
      dropChar, dropCurrency, chars, firstNumberMatch, dropDrCr, dropDrCrGo,
      decimalVal, digitsVal, isSpaceChar, isCurrencyChar]
  · decide

/-- C1 (amended): every transaction emitted by the table path satisfies the
exclusivity invariant (exactly one of debit/credit positive and `amount`
equal to it); the text fallback guarantees only that at least one side is
positive, with `amount` and `transaction_type` following debit first — on a
line with three or more amount tokens both sides can be positive. -/
theorem C1_amended :
    (∀ (isUnion clearD clearC : Bool) (srNo : ℕ) (date desc ref : String)
        (debit credit balance : ℚ) (t : RawTxn),
        finalize_table_row isUnion clearD clearC srNo date desc ref debit
          credit balance = some t → rawTxnExclusive t) ∧
    (∀ (srNo : ℕ) (date : Option String) (desc : String)
        (amounts : List String) (t : RawTxn),
        extract_from_text_fallback_line srNo date desc amounts = some t →
        (t.debit > 0 ∨ t.credit > 0) ∧
        t.amount = (if t.debit > 0 then t.debit else t.credit) ∧
        t.transaction_type = (if t.debit > 0 then "DEBIT" else "CREDIT")) := by
  constructor
  · intro isUnion clearD clearC srNo date desc ref debit credit balance t h
    simp only [finalize_table_row] at h
    generalize hdc : structural_rule1 debit credit = dc at h
    obtain ⟨d1, c1⟩ := dc
    split at h
    · exact Option.noConfusion h
    · rename_i ta heq
      unfold debit_credit_authority at heq
      split_ifs at heq with h1 h2
      · obtain ⟨hd1, hc1⟩ := h1
        injection heq with heq
        subst heq
        subst hc1
        simp only [union_final_clear, lt_self_iff_false, and_false,
          false_and, if_false, ite_self] at h
        split_ifs at h <;>
          first
            | exact Option.noConfusion h
            | (injection h with h; subst h;
               first
                 | exact Or.inl ⟨hd1, rfl, rfl⟩
                 | simp_all)
      · obtain ⟨hc1, hd1⟩ := h2
        injection heq with heq
        subst heq
        subst hd1
        simp only [union_final_clear, lt_self_iff_false, and_false,
          false_and, if_false, ite_self] at h
        split_ifs at h <;>
          first
            | exact Option.noConfusion h
            | (injection h with h; subst h;
               first
                 | exact Or.inr ⟨hc1, rfl, rfl⟩
                 | simp_all)
  · intro srNo date desc amounts t h
    cases date with
    | none => exact Option.noConfusion h
    | some d =>
      simp only [extract_from_text_fallback_line] at h
      split_ifs at h <;> try exact Option.noConfusion h
      all_goals (injection h with h; subst h; refine ⟨?_, ?_, ?_⟩)
      all_goals (try simp_all)
      all_goals (rw [if_neg (not_lt.mpr (by assumption))])

/-- C1 witness: the amended statement evaluated on a concrete table row and
a concrete text-fallback line. -/
theorem C1_amended_witness :
    rawTxnExclusive
      { sr_no := 1, date := some "01/01/24", description := some "D",
        debit := 500, credit := 0, balance := 9500,
        transaction_type := "DEBIT", amount := 500 } ∧
    (((500 : ℚ) > 0 ∨ (0 : ℚ) > 0) ∧
      (500 : ℚ) = (if (500 : ℚ) > 0 then (500 : ℚ) else 0) ∧
      "DEBIT" = (if (500 : ℚ) > 0 then "DEBIT" else "CREDIT")) := by
  constructor
  · exact C1_amended.1 false false false 1 "01/01/24" "D" "" 500 0 9500
      { sr_no := 1, date := some "01/01/24", description := some "D",
        debit := 500, credit := 0, balance := 9500,
        transaction_type := "DEBIT", amount := 500 } (by rfl)
  · exact C1_amended.2 1 (some "01/01/24") "D" ["500.00", "9500.00"]
      { sr_no := 1, date := some "01/01/24", description := some "D",
        debit := 500, credit := 0, balance := 9500,
        transaction_type := "DEBIT", amount := 500 }
      (by simp [extract_from_text_fallback_line, parse_amount_improved,
        pyStrip, dropChar, dropCurrency, chars, firstNumberMatch, dropDrCr,
        dropDrCrGo, decimalVal, digitsVal, isSpaceChar, isCurrencyChar])

/-- C2 counterexample: for a bank with no bank-specific validation layer
("HDFC Bank"), a debit cell holding the seven-digit decimal-free token
`1234567` is accepted as the monetary debit amount of the emitted
transaction. -/
theorem C2_counterexample :
    extract_row_generic_bank 1 "01/01/24" "POS PURCHASE" "" "1234567" ""
      "9,999.00" false =
      some { sr_no := 1, date := some "01/01/24",
             description := some "POS PURCHASE", debit := 1234567,
             credit := 0, balance := 9999, transaction_type := "DEBIT",
             amount := 1234567 } ∧
    6 < (digitsOf "1234567").length ∧
    containsChar "1234567" '.' = false := by
  refine ⟨?_, by decide, by rfl⟩
  simp [extract_row_generic_bank, amount_source_validation, findAllNumbers,
    findAllNumbersGo, finalize_table_row, structural_rule1,
    debit_credit_authority, union_final_clear, parse_amount_improved,
    pyStrip, dropChar, dropCurrency, chars, firstNumberMatch, dropDrCr,
    dropDrCrGo, decimalVal, digitsVal, isSpaceChar, isCurrencyChar]

/-- C2 (amended): on the Union Bank paths the golden rule is enforced — a
token whose digit run exceeds six digits with no decimal point in the cell
is never assigned as a Format-1 debit/credit amount, and the Format-2
amount column never yields an amount for such a token. -/
theorem C2_amended : ∀ (cell : String) (tranId : Option ℤ) (prior : ℚ),
    6 < (firstDigitRun (unionCellCleaned cell)).length →
    containsChar cell '.' = false →
    union_format1_cell cell tranId prior = 0 ∧
    (6 < (digitsOf (unionAmountCleaned cell)).length →
      union_format2_amount cell tranId = none) := by
  intro cell tranId prior h1 h2
  have hc : ¬(cell = "") := by
    intro he
    rw [he] at h1
    exact absurd h1 (by decide)
  constructor
  · simp [union_format1_cell, hc, h1, h2]
  · intro h3
    by_cases hs : pyStrip cell = "" <;>
      simp [union_format2_amount, hs, h2, h3]

/-- C2 witness: the amended statement evaluated at the concrete cell
`12345678`. -/
theorem C2_amended_witness :
    6 < (firstDigitRun (unionCellCleaned "12345678")).length ∧
    containsChar "12345678" '.' = false ∧
    union_format1_cell "12345678" none 5 = 0 ∧
    union_format2_amount "12345678" none = none := by
  refine ⟨by decide, by rfl, ?_, ?_⟩
  · exact (C2_amended "12345678" none 5 (by decide) (by rfl)).1
  · exact (C2_amended "12345678" none 5 (by decide) (by rfl)).2 (by decide)

/-- C3 counterexample: a debit row whose description carries ATM and a cash
keyword but also the higher-priority EMI keyword resolves to `emi_loan`
with merchant "EMI Payment" — the ATM rule does not override every other
matched rule. -/
theorem C3_counterexample :
    apply_global_rules { atm := true, cashWdl := true, emi := true } {}
      500 0 =
      { transaction_type := "debit", merchant := "EMI Payment",
        channel := "ATM", debit_or_credit := "debit",
        category := "emi_loan" } := by
  rfl

/-- C3 (amended): on a debit row containing ATM (and not a cash deposit),
provided no EMI/loan, education or travel-booking keyword — the three
higher-priority rules — also matches, the result is category `cash`,
channel `ATM`, merchant "ATM Withdrawal", overriding every lower-priority
rule and every suggestion. -/
theorem C3_amended : ∀ (f : TxnText) (sugg : NormResult) (debit credit : ℚ),
    (f.atm = true ∨ f.atwDash = true) → isCashDepositText f = false →
    hasEmiLoanKeyword f = false → hasEducationKeyword f = false →
    hasTravelBookingKeyword f = false → debit > 0 → credit = 0 →
    apply_global_rules f sugg debit credit =
      { category := "cash", merchant := "ATM Withdrawal", channel := "ATM",
        transaction_type := "withdrawal", debit_or_credit := "debit" } := by
  intro f sugg debit credit hatm h5 h1 h2 h3 hd hc
  exact apply_global_rules_atm f sugg debit credit h1 h2 h3
    (by rcases hatm with h | h <;> simp [h]) h5 hd hc

/-- C3 witness: the amended statement evaluated on a concrete ATM debit
row. -/
theorem C3_amended_witness :
    (({ atm := true, cashWdl := true } : TxnText).atm = true ∨
      ({ atm := true, cashWdl := true } : TxnText).atwDash = true) ∧
    apply_global_rules { atm := true, cashWdl := true } {} 500 0 =
      { category := "cash", merchant := "ATM Withdrawal", channel := "ATM",
        transaction_type := "withdrawal", debit_or_credit := "debit" } := by
  refine ⟨Or.inl rfl, ?_⟩
  exact C3_amended { atm := true, cashWdl := true } {} 500 0 (Or.inl rfl)
    (by rfl) (by rfl) (by rfl) (by rfl) (by norm_num) (by rfl)

/-- C4: a description carrying the EMI keyword together with the UPI
transfer rail always normalizes to category `emi_loan` and never to
`transfer`, whatever the rule-based or advisory suggestion proposed. -/
theorem C4_emi_never_transfer : ∀ (f : TxnText) (descLen : ℕ)
    (descDigit30 : Bool) (ruleSugg : NormResult) (enabled : Bool)
    (advisory : Except Unit NormResult) (debit credit : ℚ),
    f.emi = true → f.upi = true →
    (normalize_transaction f descLen descDigit30 ruleSugg enabled advisory
      debit credit).category = "emi_loan" ∧
    ¬((normalize_transaction f descLen descDigit30 ruleSugg enabled advisory
      debit credit).category = "transfer") := by
  intro f descLen descDigit30 ruleSugg enabled advisory debit credit hemi hupi
  have h : hasEmiLoanKeyword f = true := by
    simp [hasEmiLoanKeyword, hemi]
  have hcat : (normalize_transaction f descLen descDigit30 ruleSugg enabled
      advisory debit credit).category = "emi_loan" := by
    unfold normalize_transaction
    exact apply_global_rules_emi f _ debit credit h
  refine ⟨hcat, ?_⟩
  rw [hcat]
  decide

/-- C4 witness: the theorem evaluated on a concrete EMI/UPI debit row. -/
theorem C4_witness :
    (normalize_transaction { emi := true, upi := true } 25 true {} true
      (.ok {}) 2000 0).category = "emi_loan" ∧
    ¬((normalize_transaction { emi := true, upi := true } 25 true {} true
      (.ok {}) 2000 0).category = "transfer") :=
  C4_emi_never_transfer { emi := true, upi := true } 25 true {} true
    (.ok {}) 2000 0 (by rfl) (by rfl)

/-- C5: the processing pipeline routes Central Bank of India documents to
the line state machine, which accepts a document yielding two transactions
with the same final description and different positive debit amounts (the
consecutive-duplicate check tolerates up to three repeats); the
duplicate-description hard validation that would reject them lives only on
the table path, which the pipeline never runs for this bank. -/
theorem C5_pipeline_accepts_duplicates :
    extract_transactions_universal_cbi
      [cbiAnchor1, cbiDescLine, cbiAnchor2, cbiDescLine] = .ok cbiDupTxns ∧
    cbiDescViolation cbiDupTxns = true ∧
    centralBankHardValidation cbiDupTxns =
      .error "CENTRAL BANK EXTRACTION ERROR: duplicate descriptions with different debit amounts" := by
  exact ⟨by rfl, by rfl, by rfl⟩

/-- C7: when the account number or holder cannot be resolved,
`validate_and_ensure_required_fields` does raise, but the catch-all in
`extract_account_info` swallows the error and the function returns the
record with null fields — the pipeline receives a record whose
`account_holder` (or `account_number`) is null. -/
theorem C7_nulls_returned_despite_raise :
    validate_and_ensure_required_fields
      { account_number := some "12345678901" } none none none =
      .error { account_number := some "12345678901" } ∧
    extract_account_info { account_number := some "12345678901" }
      none none none =
      { account_number := some "12345678901", account_holder := none } ∧
    (extract_account_info {} none none none).account_number = none := by
  exact ⟨by rfl, by rfl, by rfl⟩

/-- C8: an invalid-credential advisory failure (the 401 `RuntimeError`) is
caught by the catch-all `except Exception` in `normalize_transaction` and
silently degraded into the rule-based suggestion — for every input the
run continues and produces the rule-based result instead of
propagating. -/
theorem C8_auth_failure_degraded : ∀ (f : TxnText) (descLen : ℕ)
    (descDigit30 : Bool) (ruleSugg fallbackSugg : NormResult)
    (debit credit : ℚ),
    normalize_transaction f descLen descDigit30 ruleSugg true
      (normalize_transaction_with_openai .authError fallbackSugg)
      debit credit =
    apply_global_rules f ruleSugg debit credit := by
  intro f descLen descDigit30 ruleSugg fallbackSugg debit credit
  simp [normalize_transaction, normalize_transaction_with_openai]

/-- C9 counterexample: a credit-only row (debit 0, credit 500) whose text
carries the MEDR channel keyword is forced to the debit direction by the
final override — a channel keyword does override the direction derived
from the amounts. -/
theorem C9_counterexample :
    apply_global_rules { medr := true } {} 0 500 =
      { transaction_type := "debit", merchant := "Unknown",
        channel := "CARD", debit_or_credit := "debit",
        category := "transfer" } := by
  rfl

/-- C9 (amended): the final direction is derived from the amounts alone —
a debit-only row is always direction debit with a non-credit transaction
type, and a credit-only row is always direction credit — except that a
description carrying MEDR forces the debit direction even on a credit-only
row. -/
theorem C9_amended : ∀ (f : TxnText) (sugg : NormResult)
    (debit credit : ℚ),
    (debit > 0 ∧ credit = 0 →
      (apply_global_rules f sugg debit credit).debit_or_credit = "debit" ∧
      ¬((apply_global_rules f sugg debit credit).transaction_type =
        "credit")) ∧
    (credit > 0 ∧ debit = 0 ∧ f.medr = false →
      (apply_global_rules f sugg debit credit).debit_or_credit = "credit" ∧
      (apply_global_rules f sugg debit credit).transaction_type =
        "credit") := by
  intro f sugg debit credit
  simp only [apply_global_rules]
  exact finalDebitCreditOverride_direction f debit credit _

/-- C9 witness: the amended statement evaluated on concrete debit-only and
credit-only rows. -/
theorem C9_amended_witness :
    ((apply_global_rules { upi := true } {} 500 0).debit_or_credit =
        "debit" ∧
      ¬((apply_global_rules { upi := true } {} 500 0).transaction_type =
        "credit")) ∧
    ((apply_global_rules { upi := true } {} 0 500).debit_or_credit =
        "credit" ∧
      (apply_global_rules { upi := true } {} 0 500).transaction_type =
        "credit") := by
  constructor
  · exact (C9_amended { upi := true } {} 500 0).1 ⟨by norm_num, rfl⟩
  · exact (C9_amended { upi := true } {} 0 500).2 ⟨by norm_num, rfl, rfl⟩

/-- C10: at most the first 300 extracted transactions are normalized
(`MAX_NORMALIZE_TRANSACTIONS` defaults to 300) and at most 300 documents
are inserted, all of them images of transactions among the first 300; the
sidecar insertion script applies the same 300 bound; the excess is dropped
without an error. -/
theorem C10_insertion_bounds : ∀ (normalize : RawTxn → Option NormResult)
    (transactions : List RawTxn) (docs : List NormResult),
    (process_pdf_inserted normalize transactions
      MAX_NORMALIZE_TRANSACTIONS).length ≤ 300 ∧
    process_pdf_normalized normalize transactions
      MAX_NORMALIZE_TRANSACTIONS =
      process_pdf_normalized normalize (transactions.take 300)
        MAX_NORMALIZE_TRANSACTIONS ∧
    (∀ p ∈ process_pdf_inserted normalize transactions
        MAX_NORMALIZE_TRANSACTIONS, p.1 ∈ transactions.take 300) ∧
    (process_json_file_inserted docs).length ≤ 300 := by
  intro n ts docs
  refine ⟨?_, ?_, ?_, ?_⟩
  · simp [process_pdf_inserted]
  · simp [process_pdf_normalized, MAX_NORMALIZE_TRANSACTIONS,
      List.take_take]
  · intro p hp
    have hmem : p ∈ process_pdf_normalized n ts
        MAX_NORMALIZE_TRANSACTIONS := by
      exact List.mem_of_mem_take hp
    rcases List.mem_filterMap.mp hmem with ⟨a, ha, hfa⟩
    cases hna : n a with
    | none => rw [hna] at hfa; exact absurd hfa (by simp)
    | some v =>
      rw [hna] at hfa
      injection hfa with hfa
      rw [← hfa]
      simpa [MAX_NORMALIZE_TRANSACTIONS] using ha
  · simp [process_json_file_inserted]

/-- C10 witness: the bounds evaluated on empty inputs. -/
theorem C10_insertion_bounds_witness :
    (process_pdf_inserted (fun _ => (none : Option NormResult)) []
      MAX_NORMALIZE_TRANSACTIONS).length ≤ 300 :=
  (C10_insertion_bounds (fun _ => none) [] []).1

/-- C6: a finalized CBI transaction's description always comes from the
`descMatch` of one of the document lines and is nonempty; once set by the
first matching line it is never overwritten by a later non-anchor line;
and a transaction still blank at the next anchor or at end of document
raises the fatal "Transaction has no description" error. -/
theorem C6_description_provenance :
    (∀ (lines : List CbiLine) (txns : List RawTxn),
        extract_central_bank_state_machine lines = .ok txns →
        ∀ t ∈ txns, ∃ d, t.description = some d ∧ ¬(d = "") ∧
          ∃ l ∈ lines, l.descMatch = some d) ∧
    (∀ (s : CbiState) (l : CbiLine) (s2 : CbiState) (t t2 : RawTxn)
        (d : String), stepCbiLine s l = .ok s2 → l.anchor = false →
        s.current = some t → s2.current = some t2 →
        t.description = some d → ¬(d = "") → t2.description = some d) ∧
    (∀ (s : CbiState) (l : CbiLine) (t : RawTxn), l.anchor = true →
        s.current = some t → blankDesc t = true →
        stepCbiLine s l =
          .error "Transaction has no description - extraction failed") ∧
    (∀ (t : RawTxn) (txns : List RawTxn), blankDesc t = true →
        finalizeCbi (some t) txns =
          .error "Transaction has no description - extraction failed") := by
  refine ⟨?_, ?_, ?_, ?_⟩
  · intro lines txns h t ht
    simp only [extract_central_bank_state_machine] at h
    split at h
    · exact Except.noConfusion h
    · rename_i s hrun
      split at h
      · exact Except.noConfusion h
      · rename_i txns0 hfin
        split at h
        · exact Except.noConfusion h
        · injection h with h
          subst h
          have hinv : cbiInv lines s :=
            runCbi_inv lines {} s (fun l hl => hl)
              ⟨fun t2 ht2 => absurd ht2 (List.not_mem_nil t2), trivial⟩ hrun
          rcases finalizeCbi_ok hfin with heq | ⟨t0, hc0, hb0, heq⟩
          · subst heq; exact hinv.1 t ht
          · subst heq
            rcases List.mem_append.mp ht with hm | hm
            · exact hinv.1 t hm
            · rcases List.mem_singleton.mp hm with rfl
              obtain ⟨d, hd, hde⟩ := blankDesc_false hb0
              have hcur := hinv.2
              rw [hc0] at hcur
              exact ⟨d, hd, hde, hcur d hd⟩
  · intro s l s2 t t2 d h hanc hcur hcur2 hd hde
    have hb : blankDesc t = false := by
      simp [blankDesc, hd]
      exact hde
    have hss : s2 = s := by
      simp only [stepCbiLine] at h
      split_ifs at h with hskip hread hanca hanca2 hign
      · injection h with h; exact h.symm
      · exact absurd hanca (by simp [hanc])
      · injection h with h; exact h.symm
      · exact absurd hanca2 (by simp [hanc])
      · injection h with h; exact h.symm
      · split at h
        · rename_i t3 heq
          rw [hcur] at heq
          injection heq with heq
          subst heq
          split_ifs at h with hb2
          · rw [hb] at hb2; exact Bool.noConfusion hb2
          · injection h with h; exact h.symm
        · injection h with h; exact h.symm
    subst hss
    rw [hcur] at hcur2
    injection hcur2 with e
    exact e ▸ hd
  · intro s l t hanc hcur hb
    cases hr : s.reading <;>
      simp [stepCbiLine, hanc, hcur, finalizeCbi, hb, hr]
  · intro t txns hb
    simp [finalizeCbi, hb]

theorem C6_witness :
    (∃ d, ({ date := some "03/03/24", description := some "TO TRF BAR",
             debit := 10, balance := 90, transaction_type := "DEBIT",
             amount := 10 } : RawTxn).description = some d ∧ ¬(d = "") ∧
       ∃ l ∈ [({ anchor := true, dateTok := some "03/03/24",
                 amounts := [10, 90] } : CbiLine),
               ({ descMatch := some "TO TRF BAR" } : CbiLine)],
         l.descMatch = some d) ∧
    ({ description := some "X" } : RawTxn).description = some "X" ∧
    stepCbiLine
      { current := some { date := some "09/09/24" }, reading := true }
      { anchor := true } =
      .error "Transaction has no description - extraction failed" ∧
    finalizeCbi (some {}) [] =
      .error "Transaction has no description - extraction failed" := by
  refine ⟨?_, ?_, ?_, ?_⟩
  · exact C6_description_provenance.1
      [{ anchor := true, dateTok := some "03/03/24", amounts := [10, 90] },
       { descMatch := some "TO TRF BAR" }]
      [{ date := some "03/03/24", description := some "TO TRF BAR",
         debit := 10, balance := 90, transaction_type := "DEBIT",
         amount := 10 }] (by rfl)
      { date := some "03/03/24", description := some "TO TRF BAR",
        debit := 10, balance := 90, transaction_type := "DEBIT",
        amount := 10 } (by simp)
  · exact C6_description_provenance.2.1
      { current := some { description := some "X" }, reading := true }
      { descMatch := some "Y" }
      { current := some { description := some "X" }, reading := true }
      { description := some "X" } { description := some "X" } "X"
      (by rfl) rfl rfl rfl rfl (by decide)
  · exact C6_description_provenance.2.2.1
      { current := some { date := some "09/09/24" }, reading := true }
      { anchor := true } { date := some "09/09/24" } rfl rfl rfl
  · exact C6_description_provenance.2.2.2 {} [] rfl

end BankFusion
